import Mathlib

set_option maxHeartbeats 1000000

/-!
Verification development for the Trap_Log firmware (ESP32 trap logger).

The definitions below are a shallow embedding of the shared core of the
firmware variants: the bounded event log with retention enforcement
(`enforceLogLimit`), the configuration store (`loadConfig`/`saveConfig`),
the line-oriented command dispatcher (`processCommand`, part_002 variant),
and the debounced button classifier (`checkButtonPress`).

Strings are modelled as `List Char` (Arduino `String`), file contents as
`List Char`, and the SPIFFS file system as an association list from path
to content.  Machine integers (`int`) are modelled as `Int`; `millis()`
timestamps as `Nat` (the unsigned 32-bit wrap of `millis()` is not
reached within the modelled traces,, and
`now - lastDebounceTime` on `Nat` agrees with the unsigned subtraction
whenever `lastDebounceTime ≤ now`, which holds along monotone traces).
-/

/-- Convenience injection of a Lean string literal into the `List Char`
model of Arduino `String`. -/
def str (s : String) : List Char := s.data

/-- Character class used by Arduino `String::trim` (C `isspace`):
space, tab, line feed, vertical tab, form feed, carriage return. -/
def isSpaceArd (c : Char) : Bool :=
  c = ' ' || c = '\t' || c = '\n' || c = '\x0b' || c = '\x0c' || c = '\r'

/-- Arduino `String::trim`: removes leading and trailing `isspace`
characters. -/
def trimArd (s : List Char) : List Char :=
  ((s.dropWhile isSpaceArd).reverse.dropWhile isSpaceArd).reverse

/-- Lower-cases every character (ASCII, as C `tolower` used by
`String::equalsIgnoreCase`). -/
def lowerL (s : List Char) : List Char := s.map Char.toLower

/-- Arduino `String::equalsIgnoreCase`. -/
def eqIC (a b : List Char) : Bool := lowerL a == lowerL b

/-- Value accumulated from the leading decimal digits of `s`. -/
def readDigits (s : List Char) : Int :=
  (s.takeWhile Char.isDigit).foldl (fun acc c => acc * 10 + ((c.toNat : Int) - 48)) 0

/-- Arduino `String::toInt` (C `atol`): skip leading whitespace, optional
sign, then leading digits; `0` when no digits follow.  The 32-bit wrap of
`long` is not modelled; no theorem below depends on inputs that overflow. -/
def toIntArd (s : List Char) : Int :=
  match s.dropWhile isSpaceArd with
  | '-' :: rest => - readDigits rest
  | '+' :: rest => readDigits rest
  | rest => readDigits rest

/-- Arduino `String::substring(a, b)` (clamping, end exclusive). -/
def substrArd (s : List Char) (a b : Nat) : List Char := (s.drop a).take (b - a)

/-- Arduino `String::charAt` (returns null character out of range, as
`String::operator[]` does on out-of-range access). -/
def charAtArd (s : List Char) (i : Nat) : Char := s.getD i (Char.ofNat 0)

/-- Arduino `String::indexOf(' ')` as an `Option` (the code compares the
result with `-1`). -/
def indexOfSpace (s : List Char) : Option Nat := s.findIdx? (· == ' ')

/-!  ## EventLog store

`enforceLogLimit` (identical in all variants) reads the log line by line
with `readStringUntil('\n')`, and when the line count exceeds
`config.lineCount` keeps only the last `lineCount` lines, rewriting the
file with `println` (which, per Arduino `Print::println`, terminates each
line with CR LF). -/

/-- Line decomposition performed by
`while (logFile.available()) lines.push_back(logFile.readStringUntil('\n'));`:
each returned line excludes its `'\n'` terminator, and a final terminator
produces no extra empty line (the stream is exhausted). -/
def readLines : List Char → List (List Char)
  | [] => []
  | c :: cs =>
    if c = '\n' then [] :: readLines cs
    else
      match readLines cs with
      | [] => [[c]]
      | l :: ls => (c :: l) :: ls

/-- Rewrite performed by `for (String line : lines) newFile.println(line);`:
Arduino `println` appends a carriage return and a line feed. -/
def writeLinesCRLF (ls : List (List Char)) : List Char :=
  ls.foldr (fun l acc => l ++ '\r' :: '\n' :: acc) []

/-- Retention enforcement `enforceLogLimit` as a pure function on the log
file's content.  `lines.size() > config.lineCount` compares `size_t`
against `int`, so a negative `lineCount` is converted to a huge unsigned
value and never trims; this is the `0 ≤ lineCount` conjunct. -/
def enforceLogLimit (content : List Char) (lineCount : Int) : List Char :=
  let lines := readLines content
  if 0 ≤ lineCount ∧ lineCount < (lines.length : Int) then
    writeLinesCRLF (lines.drop (lines.length - lineCount.toNat))
  else content

example : enforceLogLimit (str "a\nb\nc\n") 2 = str "b\r\nc\r\n" := by decide
example : enforceLogLimit (str "a\nb\n") 5 = str "a\nb\n" := by decide
example : readLines (str "a\nb\n") = [str "a", str "b"] := by decide

/-!  ## ConfigStore

The persisted record `/config.json` is modelled at the level of its parsed
JSON document: a record of optional fields (`doc["k"] | d` is
`Option.getD`).  A missing or unparsable file is `none`. -/

/-- Device configuration (part_002 `struct Config`). -/
structure Config where
  trapName : List Char
  lineCount : Int
  tapCount : Int
  sensitivity : Int
deriving DecidableEq, Repr

/-- Parsed content of `/config.json`; each field may be absent. -/
structure ConfigDoc where
  trapName : Option (List Char)
  lineCount : Option Int
  tapCount : Option Int
  sensitivity : Option Int
deriving DecidableEq, Repr

/-- Serialization performed by `saveConfig` (part_001/part_002 variants):
all four fields are written. -/
def saveConfig (c : Config) : ConfigDoc :=
  { trapName := some c.trapName
    lineCount := some c.lineCount
    tapCount := some c.tapCount
    sensitivity := some c.sensitivity }

/-- Deserialization performed by `loadConfig` (part_001/part_002 variants):
on a missing or unparsable file the current (default) config is kept (and
re-persisted, handled by the caller); otherwise fields are read with the
inline defaults `| 30`, `| 2`, `| 20`.  The `as<String>()` conversion of a
missing `trapName` is modelled as the empty string; no theorem relies on
that case. -/
def loadConfig (cur : Config) : Option ConfigDoc → Config
  | none => cur
  | some d =>
    { trapName := d.trapName.getD []
      lineCount := d.lineCount.getD 30
      tapCount := d.tapCount.getD 2
      sensitivity := d.sensitivity.getD 20 }

/-- Boot-time `loadSettings` of the part_001 and Log_RTC_3 variants: only
`tapCount` and `sensitivity` are (re)read, with the inline defaults
`| 0` and `| 127`; a missing or unparsable file leaves the config as is. -/
def loadSettingsP1 (cur : Config) : Option ConfigDoc → Config
  | none => cur
  | some d =>
    { cur with
      tapCount := d.tapCount.getD 0
      sensitivity := d.sensitivity.getD 127 }

/-- Global `config` instance of the part_001 variant at program start:
static storage is zero-initialized, the member initializers supply
`trapName` and `lineCount`, and the `tapCount`/`sensitivity` members
(declared without initializers) are `0`. -/
def initialConfigP1 : Config :=
  { trapName := str "Trap_Default", lineCount := 30, tapCount := 0, sensitivity := 0 }

/-- Boot sequence of the part_001 variant relevant to the config:
`loadConfig()` (which self-heals a missing file by persisting the current
record) followed by `loadSettings()` re-reading the same file. -/
def bootP1 (file : Option ConfigDoc) : Config :=
  match file with
  | none =>
    let persisted := saveConfig initialConfigP1
    loadSettingsP1 initialConfigP1 (some persisted)
  | some d => loadSettingsP1 (loadConfig initialConfigP1 (some d)) (some d)

/-!  ## Command dispatcher (part_002 variant)

`processCommand` is modelled as a pure transition on a system state
carrying the in-memory config, the derived log file path, the SPIFFS text
files (association list path ↦ content), the persisted config document,
the RTC value and the MAC address, and producing the list of transport
writes (`SerialBT.println`/`write`) plus the `rtc.adjust` call, if any. -/

/-- RTC date-time tuple as passed to `DateTime(...)`/returned by `rtc.now()`. -/
structure RtcTime where
  year : Int
  month : Int
  day : Int
  hour : Int
  minute : Int
  second : Int
deriving DecidableEq, Repr

/-- File system read: content of the file at path `p`, if present. -/
def fsRead (fs : List (List Char × List Char)) (p : List Char) : Option (List Char) :=
  (fs.find? (fun e => e.1 == p)).map (·.2)

/-- File system remove (`SPIFFS.remove`); removing an absent file is a no-op. -/
def fsRemove (fs : List (List Char × List Char)) (p : List Char) :
    List (List Char × List Char) :=
  fs.filter (fun e => !(e.1 == p))

/-- File system write (`FILE_WRITE`): truncate/create with the given content. -/
def fsWrite (fs : List (List Char × List Char)) (p c : List Char) :
    List (List Char × List Char) :=
  (p, c) :: fsRemove fs p

/-- The whole mutable state visible to the dispatcher. -/
structure SysState where
  config : Config
  logFilePath : List Char
  files : List (List Char × List Char)
  persisted : Option ConfigDoc
  rtcTime : RtcTime
  mac : List Char
deriving DecidableEq, Repr

/-- Observable output of a dispatch: the client-transport writes and the
`rtc.adjust` invocation (with its argument tuple), if one occurred. -/
structure DispatchOut where
  bt : List (List Char)
  rtcAdjust : Option RtcTime
deriving DecidableEq, Repr

/-- `updateLogFilePath` (part_001/part_002 variants):
`logFilePath = "/" + config.trapName + "_logs.txt"`. -/
def updateLogFilePath (name : List Char) : List Char :=
  '/' :: name ++ str "_logs.txt"

/-- Zero-padded decimal rendering used by `sprintf("%04d-%02d-%02d ...")`
(negative values are not padded; the RTC never yields them in practice). -/
def padInt (w : Nat) (n : Int) : List Char :=
  let s := (toString n).data
  if s.length < w ∧ 0 ≤ n then List.replicate (w - s.length) '0' ++ s else s

/-- Timestamp format `%04d-%02d-%02d %02d:%02d:%02d`. -/
def fmtTime (t : RtcTime) : List Char :=
  padInt 4 t.year ++ '-' :: padInt 2 t.month ++ '-' :: padInt 2 t.day ++
    ' ' :: padInt 2 t.hour ++ ':' :: padInt 2 t.minute ++ ':' :: padInt 2 t.second

/-- `logEvent` (part_002 first program): append one line
`trapName - timestamp - message` to the log file, then enforce the
retention limit.  The open-failure branch is not modelled (the store
always accepts the write). -/
def logEvent (st : SysState) (message : List Char) : SysState :=
  let line := st.config.trapName ++ str " - " ++ fmtTime st.rtcTime ++
    str " - " ++ message ++ ['\n']
  let content := (fsRead st.files st.logFilePath).getD [] ++ line
  let files' := fsWrite st.files st.logFilePath
    (enforceLogLimit content st.config.lineCount)
  { st with files := files' }

/-- Static help text of the part_002 `HELP` branch, one `println` each. -/
def helpLines : List (List Char) :=
  [ str "Commands:"
  , str "SHOW_LOGS - Display log entries"
  , str "CLEAR_LOGS - Clear all logs"
  , str "SYNC_TIME - Sync system time from RTC"
  , str "SET_RTC YYYY-MM-DD HH:MM:SS - Set RTC time"
  , str "SET_NAME NewName"
  , str "SET_LINE_COUNT <number>"
  , str "ADD_NOTE <message> - Add a note to the logs"
  , str "CURRENT_CONFIG - Show all settings"
  , str "SET_TAP 1 or SET_TAP 2 - Single or Double Tap"
  , str "SET_SENSITIVITY <1-127> - Set tap sensitivity" ]

/-- Separator check of the part_001/part_002 `SET_RTC` branch: literal
`-`, `-`, space, `:`, `:` at offsets 4, 7, 10, 13, 16. -/
def rtcSepOk (dt : List Char) : Bool :=
  charAtArd dt 4 = '-' && charAtArd dt 7 = '-' && charAtArd dt 10 = ' ' &&
    charAtArd dt 13 = ':' && charAtArd dt 16 = ':'

/-- Field extraction of the `SET_RTC` branch: six `substring(..).toInt()`
calls at the fixed offsets of the `YYYY-MM-DD HH:MM:SS` template. -/
def parseRtc (dt : List Char) : RtcTime :=
  { year := toIntArd (substrArd dt 0 4)
    month := toIntArd (substrArd dt 5 7)
    day := toIntArd (substrArd dt 8 10)
    hour := toIntArd (substrArd dt 11 13)
    minute := toIntArd (substrArd dt 14 16)
    second := toIntArd (substrArd dt 17 19) }

/-- Format check of the part_000 variant's `SET_RTC` branch: the payload
is rejected exactly when its trimmed length differs from 19 — there is no
separator check in that variant.  `some` carries the parsed tuple passed
to `rtc.adjust`. -/
def rtcParse000 (payload : List Char) : Option RtcTime :=
  let dateTime := trimArd payload
  if dateTime.length ≠ 19 then none else some (parseRtc dateTime)

/-- Command dispatcher of the part_002 variant (`processCommand`,
lines 200–386): trims the input, matches the fixed grammar (no-argument
commands with `equalsIgnoreCase`, argument commands with `startsWith`),
mutates the state, and emits the transport writes.  The source's local
`String` temporaries (`cmd`, `dateTime`, `newName`, `valueStr`, ...) are
inlined. -/
def processCommand (st : SysState) (raw : List Char) : SysState × DispatchOut :=
  if eqIC (trimArd raw) (str "HELP") then
    (st, { bt := helpLines, rtcAdjust := none })
  else if eqIC (trimArd raw) (str "SHOW_LOGS") then
    match fsRead st.files st.logFilePath with
    | none => (st, { bt := [str "No logs found."], rtcAdjust := none })
    | some content =>
      if content.length = 0 then
        (st, { bt := [str "No logs found."], rtcAdjust := none })
      else
        (st, { bt := [content], rtcAdjust := none })
  else if eqIC (trimArd raw) (str "CLEAR_LOGS") then
    ({ st with files := fsRemove st.files st.logFilePath },
      { bt := [str "Logs cleared."], rtcAdjust := none })
  else if eqIC (trimArd raw) (str "SYNC_TIME") then
    (st, { bt := [str "System time synced with RTC."], rtcAdjust := none })
  else if (str "SET_RTC").isPrefixOf (trimArd raw) then
    if (trimArd ((trimArd raw).drop 8)).length < 19 then
      (st, { bt := [str "Invalid format. Use: SET_RTC YYYY-MM-DD HH:MM:SS"],
             rtcAdjust := none })
    else if rtcSepOk (trimArd ((trimArd raw).drop 8)) = false then
      (st, { bt := [str "Invalid format. Use: SET_RTC YYYY-MM-DD HH:MM:SS"],
             rtcAdjust := none })
    else
      ({ st with rtcTime := parseRtc (trimArd ((trimArd raw).drop 8)) },
        { bt := [str "RTC updated."],
          rtcAdjust := some (parseRtc (trimArd ((trimArd raw).drop 8))) })
  else if eqIC (trimArd raw) (str "READ_TIME") then
    (st, { bt := [str "RTC Time: " ++ fmtTime st.rtcTime], rtcAdjust := none })
  else if (str "SET_NAME").isPrefixOf (trimArd raw) then
    if (trimArd ((trimArd raw).drop 8)).length = 0 then
      (st, { bt := [str "Name cannot be empty."], rtcAdjust := none })
    else
      ({ st with
          config := { st.config with trapName := trimArd ((trimArd raw).drop 8) }
          files := fsRemove st.files st.logFilePath
          logFilePath := updateLogFilePath (trimArd ((trimArd raw).drop 8))
          persisted := some (saveConfig
            { st.config with trapName := trimArd ((trimArd raw).drop 8) }) },
        { bt := [str "Trap name updated to: " ++ trimArd ((trimArd raw).drop 8)],
          rtcAdjust := none })
  else if (str "SET_LINE_COUNT").isPrefixOf (trimArd raw) then
    if toIntArd ((trimArd raw).drop 15) ≤ 0 then
      (st, { bt := [str "Line count must be positive."], rtcAdjust := none })
    else
      ({ st with
          config := { st.config with lineCount := toIntArd ((trimArd raw).drop 15) }
          persisted := some (saveConfig
            { st.config with lineCount := toIntArd ((trimArd raw).drop 15) }) },
        { bt := [str "Line count set to: " ++
            (toString (toIntArd ((trimArd raw).drop 15))).data],
          rtcAdjust := none })
  else if (str "ADD_NOTE").isPrefixOf (trimArd raw) then
    if (trimArd ((trimArd raw).drop 9)).length = 0 then
      (st, { bt := [str "Please provide a message for the note."], rtcAdjust := none })
    else
      (logEvent st (str "NOTE " ++ trimArd ((trimArd raw).drop 9)),
        { bt := [str "Note added: " ++ trimArd ((trimArd raw).drop 9)],
          rtcAdjust := none })
  else if eqIC (trimArd raw) (str "CURRENT_CONFIG") then
    (st,
      { bt :=
          [ str "===== Current Configuration ====="
          , str "Trap Name: " ++ st.config.trapName
          , str "RTC Time: " ++ fmtTime st.rtcTime
          , str "Max Log Lines: " ++ (toString st.config.lineCount).data
          , str "MAC Address: " ++ st.mac
          , str "Tap Detection: " ++
              (if st.config.tapCount = 1 then str "Single Tap" else str "Double Tap")
          , str "Tap Sensitivity: " ++ (toString st.config.sensitivity).data ]
        rtcAdjust := none })
  else if (str "SET_TAP").isPrefixOf (trimArd raw) then
    match indexOfSpace (trimArd raw) with
    | none =>
      -- only `Serial.println("No value provided for SET_TAP")`: no client write
      (st, { bt := [], rtcAdjust := none })
    | some spaceIndex =>
      if toIntArd ((trimArd raw).drop (spaceIndex + 1)) = 1 ∨
          toIntArd ((trimArd raw).drop (spaceIndex + 1)) = 2 then
        ({ st with
            config := { st.config with
              tapCount := toIntArd ((trimArd raw).drop (spaceIndex + 1)) }
            persisted := some (saveConfig
              { st.config with
                tapCount := toIntArd ((trimArd raw).drop (spaceIndex + 1)) }) },
          { bt := [str "Tap limit updated to " ++
              (toString (toIntArd ((trimArd raw).drop (spaceIndex + 1)))).data],
            rtcAdjust := none })
      else
        (st, { bt := [str "Invalid tap limit. Must be 1 or 2."], rtcAdjust := none })
  else if (str "SET_SENSITIVITY").isPrefixOf (trimArd raw) then
    match indexOfSpace (trimArd raw) with
    | none =>
      -- only `Serial.println("No value provided for SET_SENSITIVITY")`
      (st, { bt := [], rtcAdjust := none })
    | some spaceIndex =>
      if 1 ≤ toIntArd ((trimArd raw).drop (spaceIndex + 1)) ∧
          toIntArd ((trimArd raw).drop (spaceIndex + 1)) ≤ 127 then
        ({ st with
            config := { st.config with
              sensitivity := toIntArd ((trimArd raw).drop (spaceIndex + 1)) }
            persisted := some (saveConfig
              { st.config with
                sensitivity := toIntArd ((trimArd raw).drop (spaceIndex + 1)) }) },
          { bt := [str "Sensitivity updated to " ++
              (toString (toIntArd ((trimArd raw).drop (spaceIndex + 1)))).data],
            rtcAdjust := none })
      else
        (st, { bt := [str "Invalid sensitivity. Must be 1-127."], rtcAdjust := none })
  else
    (st, { bt := [str "Unknown command. Type HELP for list."], rtcAdjust := none })

/-- Disjunction of the twelve dispatch guards of `processCommand` on the
trimmed input; a line matches the grammar iff one of them fires. -/
def matchesGrammar (cmd : List Char) : Bool :=
  eqIC cmd (str "HELP") || eqIC cmd (str "SHOW_LOGS") ||
  eqIC cmd (str "CLEAR_LOGS") || eqIC cmd (str "SYNC_TIME") ||
  (str "SET_RTC").isPrefixOf cmd || eqIC cmd (str "READ_TIME") ||
  (str "SET_NAME").isPrefixOf cmd || (str "SET_LINE_COUNT").isPrefixOf cmd ||
  (str "ADD_NOTE").isPrefixOf cmd || eqIC cmd (str "CURRENT_CONFIG") ||
  (str "SET_TAP").isPrefixOf cmd || (str "SET_SENSITIVITY").isPrefixOf cmd

/-- Representative concrete state: defaults of the part_002 variant with
one log line recorded under the default identity. -/
def st0 : SysState :=
  { config := { trapName := str "Trap_Default", lineCount := 50,
                tapCount := 2, sensitivity := 20 }
    logFilePath := updateLogFilePath (str "Trap_Default")
    files := [(updateLogFilePath (str "Trap_Default"),
               str "Trap_Default - 2024-01-01 00:00:00 - TRIGGERED\n")]
    persisted := some (saveConfig { trapName := str "Trap_Default", lineCount := 50,
                                    tapCount := 2, sensitivity := 20 })
    rtcTime := { year := 2024, month := 1, day := 1, hour := 0, minute := 0, second := 0 }
    mac := str "AA:BB:CC:DD:EE:FF" }

example : (processCommand st0 (str "SET_TAP")).2.bt = [] := by decide
example : (processCommand st0 (str "set_name B")).2.bt =
    [str "Unknown command. Type HELP for list."] := by decide
example : (processCommand st0 (str "Help")).2.bt = helpLines := by decide
example : (processCommand st0 (str "SET_RTC 2024-01-01 00:00:00Z")).2.rtcAdjust =
    some { year := 2024, month := 1, day := 1, hour := 0, minute := 0, second := 0 } := by
  decide

/-!  ## EventClassifier (debounced button input)

`checkButtonPress` (identical in part_000 and part_002) is modelled as a
step function on the three classifier globals, fed the current `millis()`
value and the freshly read level (`LOW` is `false`, `HIGH` is `true`).
The returned flag records whether the step logged a `TRIGGERED` event. -/

/-- Classifier state: `lastStableState`, `lastReadState`,
`lastDebounceTime`. -/
structure BtnState where
  lastStableState : Bool
  lastReadState : Bool
  lastDebounceTime : Nat
deriving DecidableEq, Repr

/-- Classifier globals at boot: both levels `HIGH` (pull-up idle),
debounce timer zero. -/
def initBtnState : BtnState :=
  { lastStableState := true, lastReadState := true, lastDebounceTime := 0 }

/-- The fixed `debounceDelay` of all variants. -/
def debounceDelay : Nat := 50

/-- One poll of `checkButtonPress` at time `now` reading level
`currentRead`: reset the debounce timer on any observed change, and once
the level has been unchanged for more than `debounceDelay`, commit it as
the stable level, logging the event exactly when the committed level is
`LOW`. -/
def checkButtonPress (s : BtnState) (now : Nat) (currentRead : Bool) :
    BtnState × Bool :=
  let s1 :=
    if currentRead ≠ s.lastReadState then
      { s with lastDebounceTime := now, lastReadState := currentRead }
    else s
  if debounceDelay < now - s1.lastDebounceTime then
    if currentRead ≠ s1.lastStableState then
      ({ s1 with lastStableState := currentRead }, currentRead == false)
    else (s1, false)
  else (s1, false)

/-- Times of the polls at which a run of `checkButtonPress` over the given
trace of `(millis, level)` readings commits a change of the stable level. -/
def commitTimes (s : BtnState) : List (Nat × Bool) → List Nat
  | [] => []
  | (t, lvl) :: rest =>
    let s' := (checkButtonPress s t lvl).1
    if s'.lastStableState ≠ s.lastStableState then t :: commitTimes s' rest
    else commitTimes s' rest

example :
    commitTimes initBtnState
      [(100, false), (120, true), (130, false), (140, true), (300, true)] = [] := by
  decide
example :
    commitTimes initBtnState [(100, false), (120, true), (130, false), (300, false)] =
      [300] := by
  decide
example :
    commitTimes initBtnState [(100, false), (200, false), (260, true)] = [200] := by
  decide

/-- Case-analysis principle for `processCommand`: to prove a property of
the dispatch result it suffices to prove it for each of the 24 branches,
under that branch's path conditions.  `c` abbreviates the trimmed input. -/
theorem processCommandCases (st : SysState) (raw : List Char)
    (P : SysState × DispatchOut → Prop)
    (hHelp : eqIC (trimArd raw) (str "HELP") = true →
      P (st, { bt := helpLines, rtcAdjust := none }))
    (hShowNone : eqIC (trimArd raw) (str "HELP") = false →
      eqIC (trimArd raw) (str "SHOW_LOGS") = true →
      fsRead st.files st.logFilePath = none →
      P (st, { bt := [str "No logs found."], rtcAdjust := none }))
    (hShowEmpty : ∀ content, eqIC (trimArd raw) (str "HELP") = false →
      eqIC (trimArd raw) (str "SHOW_LOGS") = true →
      fsRead st.files st.logFilePath = some content → content.length = 0 →
      P (st, { bt := [str "No logs found."], rtcAdjust := none }))
    (hShowSome : ∀ content, eqIC (trimArd raw) (str "HELP") = false →
      eqIC (trimArd raw) (str "SHOW_LOGS") = true →
      fsRead st.files st.logFilePath = some content → ¬ content.length = 0 →
      P (st, { bt := [content], rtcAdjust := none }))
    (hClear : eqIC (trimArd raw) (str "HELP") = false →
      eqIC (trimArd raw) (str "SHOW_LOGS") = false →
      eqIC (trimArd raw) (str "CLEAR_LOGS") = true →
      P ({ st with files := fsRemove st.files st.logFilePath },
        { bt := [str "Logs cleared."], rtcAdjust := none }))
    (hSync : eqIC (trimArd raw) (str "HELP") = false →
      eqIC (trimArd raw) (str "SHOW_LOGS") = false →
      eqIC (trimArd raw) (str "CLEAR_LOGS") = false →
      eqIC (trimArd raw) (str "SYNC_TIME") = true →
      P (st, { bt := [str "System time synced with RTC."], rtcAdjust := none }))
    (hRtcShort : eqIC (trimArd raw) (str "HELP") = false →
      eqIC (trimArd raw) (str "SHOW_LOGS") = false →
      eqIC (trimArd raw) (str "CLEAR_LOGS") = false →
      eqIC (trimArd raw) (str "SYNC_TIME") = false →
      (str "SET_RTC").isPrefixOf (trimArd raw) = true →
      (trimArd ((trimArd raw).drop 8)).length < 19 →
      P (st, { bt := [str "Invalid format. Use: SET_RTC YYYY-MM-DD HH:MM:SS"],
               rtcAdjust := none }))
    (hRtcSep : eqIC (trimArd raw) (str "HELP") = false →
      eqIC (trimArd raw) (str "SHOW_LOGS") = false →
      eqIC (trimArd raw) (str "CLEAR_LOGS") = false →
      eqIC (trimArd raw) (str "SYNC_TIME") = false →
      (str "SET_RTC").isPrefixOf (trimArd raw) = true →
      ¬ (trimArd ((trimArd raw).drop 8)).length < 19 →
      rtcSepOk (trimArd ((trimArd raw).drop 8)) = false →
      P (st, { bt := [str "Invalid format. Use: SET_RTC YYYY-MM-DD HH:MM:SS"],
               rtcAdjust := none }))
    (hRtcOk : eqIC (trimArd raw) (str "HELP") = false →
      eqIC (trimArd raw) (str "SHOW_LOGS") = false →
      eqIC (trimArd raw) (str "CLEAR_LOGS") = false →
      eqIC (trimArd raw) (str "SYNC_TIME") = false →
      (str "SET_RTC").isPrefixOf (trimArd raw) = true →
      ¬ (trimArd ((trimArd raw).drop 8)).length < 19 →
      ¬ rtcSepOk (trimArd ((trimArd raw).drop 8)) = false →
      P ({ st with rtcTime := parseRtc (trimArd ((trimArd raw).drop 8)) },
        { bt := [str "RTC updated."],
          rtcAdjust := some (parseRtc (trimArd ((trimArd raw).drop 8))) }))
    (hRead : eqIC (trimArd raw) (str "HELP") = false →
      eqIC (trimArd raw) (str "SHOW_LOGS") = false →
      eqIC (trimArd raw) (str "CLEAR_LOGS") = false →
      eqIC (trimArd raw) (str "SYNC_TIME") = false →
      (str "SET_RTC").isPrefixOf (trimArd raw) = false →
      eqIC (trimArd raw) (str "READ_TIME") = true →
      P (st, { bt := [str "RTC Time: " ++ fmtTime st.rtcTime], rtcAdjust := none }))
    (hNameEmpty : eqIC (trimArd raw) (str "HELP") = false →
      eqIC (trimArd raw) (str "SHOW_LOGS") = false →
      eqIC (trimArd raw) (str "CLEAR_LOGS") = false →
      eqIC (trimArd raw) (str "SYNC_TIME") = false →
      (str "SET_RTC").isPrefixOf (trimArd raw) = false →
      eqIC (trimArd raw) (str "READ_TIME") = false →
      (str "SET_NAME").isPrefixOf (trimArd raw) = true →
      (trimArd ((trimArd raw).drop 8)).length = 0 →
      P (st, { bt := [str "Name cannot be empty."], rtcAdjust := none }))
    (hNameOk : eqIC (trimArd raw) (str "HELP") = false →
      eqIC (trimArd raw) (str "SHOW_LOGS") = false →
      eqIC (trimArd raw) (str "CLEAR_LOGS") = false →
      eqIC (trimArd raw) (str "SYNC_TIME") = false →
      (str "SET_RTC").isPrefixOf (trimArd raw) = false →
      eqIC (trimArd raw) (str "READ_TIME") = false →
      (str "SET_NAME").isPrefixOf (trimArd raw) = true →
      ¬ (trimArd ((trimArd raw).drop 8)).length = 0 →
      P ({ st with
            config := { st.config with trapName := trimArd ((trimArd raw).drop 8) }
            files := fsRemove st.files st.logFilePath
            logFilePath := updateLogFilePath (trimArd ((trimArd raw).drop 8))
            persisted := some (saveConfig
              { st.config with trapName := trimArd ((trimArd raw).drop 8) }) },
        { bt := [str "Trap name updated to: " ++ trimArd ((trimArd raw).drop 8)],
          rtcAdjust := none }))
    (hLineNonpos : eqIC (trimArd raw) (str "HELP") = false →
      eqIC (trimArd raw) (str "SHOW_LOGS") = false →
      eqIC (trimArd raw) (str "CLEAR_LOGS") = false →
      eqIC (trimArd raw) (str "SYNC_TIME") = false →
      (str "SET_RTC").isPrefixOf (trimArd raw) = false →
      eqIC (trimArd raw) (str "READ_TIME") = false →
      (str "SET_NAME").isPrefixOf (trimArd raw) = false →
      (str "SET_LINE_COUNT").isPrefixOf (trimArd raw) = true →
      toIntArd ((trimArd raw).drop 15) ≤ 0 →
      P (st, { bt := [str "Line count must be positive."], rtcAdjust := none }))
    (hLineOk : eqIC (trimArd raw) (str "HELP") = false →
      eqIC (trimArd raw) (str "SHOW_LOGS") = false →
      eqIC (trimArd raw) (str "CLEAR_LOGS") = false →
      eqIC (trimArd raw) (str "SYNC_TIME") = false →
      (str "SET_RTC").isPrefixOf (trimArd raw) = false →
      eqIC (trimArd raw) (str "READ_TIME") = false →
      (str "SET_NAME").isPrefixOf (trimArd raw) = false →
      (str "SET_LINE_COUNT").isPrefixOf (trimArd raw) = true →
      ¬ toIntArd ((trimArd raw).drop 15) ≤ 0 →
      P ({ st with
            config := { st.config with lineCount := toIntArd ((trimArd raw).drop 15) }
            persisted := some (saveConfig
              { st.config with lineCount := toIntArd ((trimArd raw).drop 15) }) },
        { bt := [str "Line count set to: " ++
            (toString (toIntArd ((trimArd raw).drop 15))).data],
          rtcAdjust := none }))
    (hNoteEmpty : eqIC (trimArd raw) (str "HELP") = false →
      eqIC (trimArd raw) (str "SHOW_LOGS") = false →
      eqIC (trimArd raw) (str "CLEAR_LOGS") = false →
      eqIC (trimArd raw) (str "SYNC_TIME") = false →
      (str "SET_RTC").isPrefixOf (trimArd raw) = false →
      eqIC (trimArd raw) (str "READ_TIME") = false →
      (str "SET_NAME").isPrefixOf (trimArd raw) = false →
      (str "SET_LINE_COUNT").isPrefixOf (trimArd raw) = false →
      (str "ADD_NOTE").isPrefixOf (trimArd raw) = true →
      (trimArd ((trimArd raw).drop 9)).length = 0 →
      P (st, { bt := [str "Please provide a message for the note."],
               rtcAdjust := none }))
    (hNoteOk : eqIC (trimArd raw) (str "HELP") = false →
      eqIC (trimArd raw) (str "SHOW_LOGS") = false →
      eqIC (trimArd raw) (str "CLEAR_LOGS") = false →
      eqIC (trimArd raw) (str "SYNC_TIME") = false →
      (str "SET_RTC").isPrefixOf (trimArd raw) = false →
      eqIC (trimArd raw) (str "READ_TIME") = false →
      (str "SET_NAME").isPrefixOf (trimArd raw) = false →
      (str "SET_LINE_COUNT").isPrefixOf (trimArd raw) = false →
      (str "ADD_NOTE").isPrefixOf (trimArd raw) = true →
      ¬ (trimArd ((trimArd raw).drop 9)).length = 0 →
      P (logEvent st (str "NOTE " ++ trimArd ((trimArd raw).drop 9)),
        { bt := [str "Note added: " ++ trimArd ((trimArd raw).drop 9)],
          rtcAdjust := none }))
    (hConfig : eqIC (trimArd raw) (str "HELP") = false →
      eqIC (trimArd raw) (str "SHOW_LOGS") = false →
      eqIC (trimArd raw) (str "CLEAR_LOGS") = false →
      eqIC (trimArd raw) (str "SYNC_TIME") = false →
      (str "SET_RTC").isPrefixOf (trimArd raw) = false →
      eqIC (trimArd raw) (str "READ_TIME") = false →
      (str "SET_NAME").isPrefixOf (trimArd raw) = false →
      (str "SET_LINE_COUNT").isPrefixOf (trimArd raw) = false →
      (str "ADD_NOTE").isPrefixOf (trimArd raw) = false →
      eqIC (trimArd raw) (str "CURRENT_CONFIG") = true →
      P (st,
        { bt :=
            [ str "===== Current Configuration ====="
            , str "Trap Name: " ++ st.config.trapName
            , str "RTC Time: " ++ fmtTime st.rtcTime
            , str "Max Log Lines: " ++ (toString st.config.lineCount).data
            , str "MAC Address: " ++ st.mac
            , str "Tap Detection: " ++
                (if st.config.tapCount = 1 then str "Single Tap" else str "Double Tap")
            , str "Tap Sensitivity: " ++ (toString st.config.sensitivity).data ]
          rtcAdjust := none }))
    (hTapNoSpace : eqIC (trimArd raw) (str "HELP") = false →
      eqIC (trimArd raw) (str "SHOW_LOGS") = false →
      eqIC (trimArd raw) (str "CLEAR_LOGS") = false →
      eqIC (trimArd raw) (str "SYNC_TIME") = false →
      (str "SET_RTC").isPrefixOf (trimArd raw) = false →
      eqIC (trimArd raw) (str "READ_TIME") = false →
      (str "SET_NAME").isPrefixOf (trimArd raw) = false →
      (str "SET_LINE_COUNT").isPrefixOf (trimArd raw) = false →
      (str "ADD_NOTE").isPrefixOf (trimArd raw) = false →
      eqIC (trimArd raw) (str "CURRENT_CONFIG") = false →
      (str "SET_TAP").isPrefixOf (trimArd raw) = true →
      indexOfSpace (trimArd raw) = none →
      P (st, { bt := [], rtcAdjust := none }))
    (hTapValid : ∀ spaceIndex, (str "SET_TAP").isPrefixOf (trimArd raw) = true →
      indexOfSpace (trimArd raw) = some spaceIndex →
      (toIntArd ((trimArd raw).drop (spaceIndex + 1)) = 1 ∨
        toIntArd ((trimArd raw).drop (spaceIndex + 1)) = 2) →
      P ({ st with
            config := { st.config with
              tapCount := toIntArd ((trimArd raw).drop (spaceIndex + 1)) }
            persisted := some (saveConfig
              { st.config with
                tapCount := toIntArd ((trimArd raw).drop (spaceIndex + 1)) }) },
        { bt := [str "Tap limit updated to " ++
            (toString (toIntArd ((trimArd raw).drop (spaceIndex + 1)))).data],
          rtcAdjust := none }))
    (hTapInvalid : ∀ spaceIndex, (str "SET_TAP").isPrefixOf (trimArd raw) = true →
      indexOfSpace (trimArd raw) = some spaceIndex →
      ¬ (toIntArd ((trimArd raw).drop (spaceIndex + 1)) = 1 ∨
          toIntArd ((trimArd raw).drop (spaceIndex + 1)) = 2) →
      P (st, { bt := [str "Invalid tap limit. Must be 1 or 2."], rtcAdjust := none }))
    (hSensNoSpace : eqIC (trimArd raw) (str "HELP") = false →
      eqIC (trimArd raw) (str "SHOW_LOGS") = false →
      eqIC (trimArd raw) (str "CLEAR_LOGS") = false →
      eqIC (trimArd raw) (str "SYNC_TIME") = false →
      (str "SET_RTC").isPrefixOf (trimArd raw) = false →
      eqIC (trimArd raw) (str "READ_TIME") = false →
      (str "SET_NAME").isPrefixOf (trimArd raw) = false →
      (str "SET_LINE_COUNT").isPrefixOf (trimArd raw) = false →
      (str "ADD_NOTE").isPrefixOf (trimArd raw) = false →
      eqIC (trimArd raw) (str "CURRENT_CONFIG") = false →
      (str "SET_TAP").isPrefixOf (trimArd raw) = false →
      (str "SET_SENSITIVITY").isPrefixOf (trimArd raw) = true →
      indexOfSpace (trimArd raw) = none →
      P (st, { bt := [], rtcAdjust := none }))
    (hSensValid : ∀ spaceIndex,
      (str "SET_SENSITIVITY").isPrefixOf (trimArd raw) = true →
      indexOfSpace (trimArd raw) = some spaceIndex →
      (1 ≤ toIntArd ((trimArd raw).drop (spaceIndex + 1)) ∧
        toIntArd ((trimArd raw).drop (spaceIndex + 1)) ≤ 127) →
      P ({ st with
            config := { st.config with
              sensitivity := toIntArd ((trimArd raw).drop (spaceIndex + 1)) }
            persisted := some (saveConfig
              { st.config with
                sensitivity := toIntArd ((trimArd raw).drop (spaceIndex + 1)) }) },
        { bt := [str "Sensitivity updated to " ++
            (toString (toIntArd ((trimArd raw).drop (spaceIndex + 1)))).data],
          rtcAdjust := none }))
    (hSensInvalid : ∀ spaceIndex,
      (str "SET_SENSITIVITY").isPrefixOf (trimArd raw) = true →
      indexOfSpace (trimArd raw) = some spaceIndex →
      ¬ (1 ≤ toIntArd ((trimArd raw).drop (spaceIndex + 1)) ∧
          toIntArd ((trimArd raw).drop (spaceIndex + 1)) ≤ 127) →
      P (st, { bt := [str "Invalid sensitivity. Must be 1-127."],
               rtcAdjust := none }))
    (hUnknown : eqIC (trimArd raw) (str "HELP") = false →
      eqIC (trimArd raw) (str "SHOW_LOGS") = false →
      eqIC (trimArd raw) (str "CLEAR_LOGS") = false →
      eqIC (trimArd raw) (str "SYNC_TIME") = false →
      (str "SET_RTC").isPrefixOf (trimArd raw) = false →
      eqIC (trimArd raw) (str "READ_TIME") = false →
      (str "SET_NAME").isPrefixOf (trimArd raw) = false →
      (str "SET_LINE_COUNT").isPrefixOf (trimArd raw) = false →
      (str "ADD_NOTE").isPrefixOf (trimArd raw) = false →
      eqIC (trimArd raw) (str "CURRENT_CONFIG") = false →
      (str "SET_TAP").isPrefixOf (trimArd raw) = false →
      (str "SET_SENSITIVITY").isPrefixOf (trimArd raw) = false →
      P (st, { bt := [str "Unknown command. Type HELP for list."],
               rtcAdjust := none })) :
    P (processCommand st raw) := by
  unfold processCommand
  by_cases h1 : eqIC (trimArd raw) (str "HELP") = true
  · rw [if_pos h1]; exact hHelp h1
  rw [if_neg h1]
  simp only [Bool.not_eq_true] at h1
  by_cases h2 : eqIC (trimArd raw) (str "SHOW_LOGS") = true
  · rw [if_pos h2]
    cases hfs : fsRead st.files st.logFilePath with
    | none => exact hShowNone h1 h2 hfs
    | some content =>
      simp only []
      by_cases hlen : content.length = 0
      · rw [if_pos hlen]; exact hShowEmpty content h1 h2 hfs hlen
      · rw [if_neg hlen]; exact hShowSome content h1 h2 hfs hlen
  rw [if_neg h2]
  simp only [Bool.not_eq_true] at h2
  by_cases h3 : eqIC (trimArd raw) (str "CLEAR_LOGS") = true
  · rw [if_pos h3]; exact hClear h1 h2 h3
  rw [if_neg h3]
  simp only [Bool.not_eq_true] at h3
  by_cases h4 : eqIC (trimArd raw) (str "SYNC_TIME") = true
  · rw [if_pos h4]; exact hSync h1 h2 h3 h4
  rw [if_neg h4]
  simp only [Bool.not_eq_true] at h4
  by_cases h5 : (str "SET_RTC").isPrefixOf (trimArd raw) = true
  · rw [if_pos h5]
    by_cases hl : (trimArd ((trimArd raw).drop 8)).length < 19
    · rw [if_pos hl]; exact hRtcShort h1 h2 h3 h4 h5 hl
    rw [if_neg hl]
    by_cases hsep : rtcSepOk (trimArd ((trimArd raw).drop 8)) = false
    · rw [if_pos hsep]; exact hRtcSep h1 h2 h3 h4 h5 hl hsep
    · rw [if_neg hsep]; exact hRtcOk h1 h2 h3 h4 h5 hl hsep
  rw [if_neg h5]
  simp only [Bool.not_eq_true] at h5
  by_cases h6 : eqIC (trimArd raw) (str "READ_TIME") = true
  · rw [if_pos h6]; exact hRead h1 h2 h3 h4 h5 h6
  rw [if_neg h6]
  simp only [Bool.not_eq_true] at h6
  by_cases h7 : (str "SET_NAME").isPrefixOf (trimArd raw) = true
  · rw [if_pos h7]
    by_cases hl : (trimArd ((trimArd raw).drop 8)).length = 0
    · rw [if_pos hl]; exact hNameEmpty h1 h2 h3 h4 h5 h6 h7 hl
    · rw [if_neg hl]; exact hNameOk h1 h2 h3 h4 h5 h6 h7 hl
  rw [if_neg h7]
  simp only [Bool.not_eq_true] at h7
  by_cases h8 : (str "SET_LINE_COUNT").isPrefixOf (trimArd raw) = true
  · rw [if_pos h8]
    by_cases hl : toIntArd ((trimArd raw).drop 15) ≤ 0
    · rw [if_pos hl]; exact hLineNonpos h1 h2 h3 h4 h5 h6 h7 h8 hl
    · rw [if_neg hl]; exact hLineOk h1 h2 h3 h4 h5 h6 h7 h8 hl
  rw [if_neg h8]
  simp only [Bool.not_eq_true] at h8
  by_cases h9 : (str "ADD_NOTE").isPrefixOf (trimArd raw) = true
  · rw [if_pos h9]
    by_cases hl : (trimArd ((trimArd raw).drop 9)).length = 0
    · rw [if_pos hl]; exact hNoteEmpty h1 h2 h3 h4 h5 h6 h7 h8 h9 hl
    · rw [if_neg hl]; exact hNoteOk h1 h2 h3 h4 h5 h6 h7 h8 h9 hl
  rw [if_neg h9]
  simp only [Bool.not_eq_true] at h9
  by_cases h10 : eqIC (trimArd raw) (str "CURRENT_CONFIG") = true
  · rw [if_pos h10]; exact hConfig h1 h2 h3 h4 h5 h6 h7 h8 h9 h10
  rw [if_neg h10]
  simp only [Bool.not_eq_true] at h10
  by_cases h11 : (str "SET_TAP").isPrefixOf (trimArd raw) = true
  · rw [if_pos h11]
    cases hsp : indexOfSpace (trimArd raw) with
    | none => exact hTapNoSpace h1 h2 h3 h4 h5 h6 h7 h8 h9 h10 h11 hsp
    | some spaceIndex =>
      simp only []
      by_cases hv : toIntArd ((trimArd raw).drop (spaceIndex + 1)) = 1 ∨
          toIntArd ((trimArd raw).drop (spaceIndex + 1)) = 2
      · rw [if_pos hv]; exact hTapValid spaceIndex h11 hsp hv
      · rw [if_neg hv]; exact hTapInvalid spaceIndex h11 hsp hv
  rw [if_neg h11]
  simp only [Bool.not_eq_true] at h11
  by_cases h12 : (str "SET_SENSITIVITY").isPrefixOf (trimArd raw) = true
  · rw [if_pos h12]
    cases hsp : indexOfSpace (trimArd raw) with
    | none => exact hSensNoSpace h1 h2 h3 h4 h5 h6 h7 h8 h9 h10 h11 h12 hsp
    | some spaceIndex =>
      simp only []
      by_cases hv : 1 ≤ toIntArd ((trimArd raw).drop (spaceIndex + 1)) ∧
          toIntArd ((trimArd raw).drop (spaceIndex + 1)) ≤ 127
      · rw [if_pos hv]; exact hSensValid spaceIndex h12 hsp hv
      · rw [if_neg hv]; exact hSensInvalid spaceIndex h12 hsp hv
  rw [if_neg h12]
  simp only [Bool.not_eq_true] at h12
  exact hUnknown h1 h2 h3 h4 h5 h6 h7 h8 h9 h10 h11 h12

/-!  ## Helper lemmas: dispatch-guard discrimination -/

theorem lowerL_length (s : List Char) : (lowerL s).length = s.length := by
  simp [lowerL]

theorem eqIC_getElem {a b : List Char} (h : eqIC a b = true) (i : Nat) :
    (getElem? a i).map Char.toLower = (getElem? b i).map Char.toLower := by
  have hl : lowerL a = lowerL b := by simpa [eqIC] using h
  have h2 := congrArg (fun l => getElem? l i) hl
  simpa [lowerL, List.getElem?_map] using h2

theorem eqIC_length {a b : List Char} (h : eqIC a b = true) :
    a.length = b.length := by
  have hl : lowerL a = lowerL b := by simpa [eqIC] using h
  have h2 := congrArg List.length hl
  simpa [lowerL_length] using h2

theorem isPrefixOf_exists {p c : List Char} (h : p.isPrefixOf c = true) :
    ∃ t, c = p ++ t := by
  induction p generalizing c with
  | nil => exact ⟨c, rfl⟩
  | cons a p ih =>
    cases c with
    | nil => simp [List.isPrefixOf] at h
    | cons b c =>
      simp only [List.isPrefixOf, Bool.and_eq_true, beq_iff_eq] at h
      rcases h with ⟨rfl, h2⟩
      rcases ih h2 with ⟨t, rfl⟩
      exact ⟨t, rfl⟩

theorem isPrefixOf_getElem {p c : List Char} (h : p.isPrefixOf c = true)
    (i : Nat) (hi : i < p.length) : getElem? c i = getElem? p i := by
  rcases isPrefixOf_exists h with ⟨t, rfl⟩
  exact List.getElem?_append_left hi

/-- Refute an `equalsIgnoreCase` guard from a known prefix of the input:
position `i` of the prefix differs (case-insensitively) from position `i`
of the keyword. -/
theorem eqIC_false_of_isPrefixOf {p c : List Char} (q : List Char)
    (hp : p.isPrefixOf c = true) (i : Nat) (hi : i < p.length)
    (h : (getElem? p i).map Char.toLower ≠ (getElem? q i).map Char.toLower) :
    eqIC c q = false := by
  cases ht : eqIC c q
  · rfl
  · exfalso
    apply h
    rw [← isPrefixOf_getElem hp i hi]
    exact eqIC_getElem ht i

/-- Refute a `startsWith` guard from a known prefix of the input:
position `i` differs between the two literal prefixes. -/
theorem isPrefixOf_false_of_isPrefixOf {p c : List Char} (q : List Char)
    (hp : p.isPrefixOf c = true) (i : Nat) (hip : i < p.length)
    (hiq : i < q.length) (h : getElem? p i ≠ getElem? q i) :
    q.isPrefixOf c = false := by
  cases ht : q.isPrefixOf c
  · rfl
  · exfalso
    apply h
    rw [← isPrefixOf_getElem hp i hip]
    exact isPrefixOf_getElem ht i hiq

/-- Refute an `equalsIgnoreCase` guard from another `equalsIgnoreCase`
fact about the input: the two keywords differ (case-insensitively) at
position `i`. -/
theorem eqIC_false_of_eqIC {c q : List Char} (q2 : List Char)
    (hq : eqIC c q = true) (i : Nat)
    (h : (getElem? q i).map Char.toLower ≠ (getElem? q2 i).map Char.toLower) :
    eqIC c q2 = false := by
  cases ht : eqIC c q2
  · rfl
  · exfalso
    apply h
    rw [← eqIC_getElem hq i]
    exact eqIC_getElem ht i

/-- Refute a `startsWith` guard from an `equalsIgnoreCase` fact about the
input: the keyword differs (case-insensitively) from the would-be prefix
at position `i`. -/
theorem isPrefixOf_false_of_eqIC {c q : List Char} (p : List Char)
    (hq : eqIC c q = true) (i : Nat) (hip : i < p.length)
    (h : (getElem? p i).map Char.toLower ≠ (getElem? q i).map Char.toLower) :
    p.isPrefixOf c = false := by
  cases ht : p.isPrefixOf c
  · rfl
  · exfalso
    apply h
    rw [← isPrefixOf_getElem ht i hip]
    exact eqIC_getElem hq i

/-!  ## Helper lemmas: line structure of the log store -/

theorem readLines_no_newline : ∀ (s : List Char), ∀ l ∈ readLines s, '\n' ∉ l := by
  intro s
  induction s with
  | nil => intro l hl; simp [readLines] at hl
  | cons c cs ih =>
    intro l hl
    by_cases hc : c = '\n'
    · rw [readLines, if_pos hc] at hl
      rcases List.mem_cons.mp hl with h1 | h2
      · subst h1; simp
      · exact ih l h2
    · rw [readLines, if_neg hc] at hl
      cases hr : readLines cs with
      | nil =>
        rw [hr] at hl
        simp only [List.mem_singleton] at hl
        subst hl
        simp only [List.mem_singleton]
        exact fun h => hc h.symm
      | cons l0 ls =>
        rw [hr] at hl
        rcases List.mem_cons.mp hl with h1 | h2
        · subst h1
          intro hmem
          rcases List.mem_cons.mp hmem with h3 | h4
          · exact hc h3.symm
          · exact ih l0 (hr ▸ List.mem_cons_self l0 ls) h4
        · exact ih l (hr ▸ List.mem_cons_of_mem l0 h2)

theorem readLines_append_newline (l rest : List Char) (hl : '\n' ∉ l) :
    readLines (l ++ '\n' :: rest) = l :: readLines rest := by
  induction l with
  | nil => simp [readLines]
  | cons c l ih =>
    have hc : ¬ c = '\n' := by
      intro h
      exact hl (h ▸ List.mem_cons_self c l)
    have hl' : '\n' ∉ l := fun h => hl (List.mem_cons_of_mem c h)
    simp only [List.cons_append, readLines, if_neg hc, List.append_eq, ih hl']

theorem readLines_writeLinesCRLF :
    ∀ (ls : List (List Char)), (∀ l ∈ ls, '\n' ∉ l) →
    readLines (writeLinesCRLF ls) = ls.map (fun l => l ++ ['\r']) := by
  intro ls
  induction ls with
  | nil => intro _; simp [writeLinesCRLF, readLines]
  | cons l ls ih =>
    intro h
    have hl : '\n' ∉ l ++ ['\r'] := by
      intro hm
      rcases List.mem_append.mp hm with h1 | h2
      · exact h l (List.mem_cons_self l ls) h1
      · simp at h2
    have hw : writeLinesCRLF (l :: ls) = (l ++ ['\r']) ++ '\n' :: writeLinesCRLF ls := by
      simp [writeLinesCRLF]
    rw [hw, readLines_append_newline _ _ hl,
      ih (fun x hx => h x (List.mem_cons_of_mem l hx))]
    simp

/-- C1 (amended).  Retention enforcement on a log of `N > 0` lines with a
configured limit `M > 0` leaves exactly `min N M` lines; when `N ≤ M` the
content is untouched, and when `N > M` the result is the last `M` lines
of the original in their original order, each with a carriage return
appended (the rewrite uses `println`, which terminates lines with CR LF);
a second immediate call changes nothing. -/
theorem enforceLogLimit_retention (content : List Char) (M : Int)
    (hN : 0 < (readLines content).length) (hM : 0 < M) :
    (readLines (enforceLogLimit content M)).length =
        min (readLines content).length M.toNat ∧
    (if ((readLines content).length : Int) ≤ M then
        readLines (enforceLogLimit content M) = readLines content
      else
        readLines (enforceLogLimit content M) =
          ((readLines content).drop ((readLines content).length - M.toNat)).map
            (fun l => l ++ ['\r'])) ∧
    enforceLogLimit (enforceLogLimit content M) M = enforceLogLimit content M := by
  by_cases hcase : M < ((readLines content).length : Int)
  · have hcond : 0 ≤ M ∧ M < ((readLines content).length : Int) :=
      ⟨le_of_lt hM, hcase⟩
    have htrim : enforceLogLimit content M =
        writeLinesCRLF ((readLines content).drop
          ((readLines content).length - M.toNat)) := by
      simp only [enforceLogLimit, if_pos hcond]
    have hnn : ∀ l ∈ (readLines content).drop
        ((readLines content).length - M.toNat), '\n' ∉ l :=
      fun l hl => readLines_no_newline content l (List.drop_subset _ _ hl)
    have hrl : readLines (enforceLogLimit content M) =
        ((readLines content).drop ((readLines content).length - M.toNat)).map
          (fun l => l ++ ['\r']) := by
      rw [htrim]
      exact readLines_writeLinesCRLF _ hnn
    have hMn : M.toNat ≤ (readLines content).length := by omega
    have hlen : (readLines (enforceLogLimit content M)).length = M.toNat := by
      rw [hrl]
      simp [List.length_drop]
      omega
    refine ⟨?_, ?_, ?_⟩
    · rw [hlen]
      omega
    · rw [if_neg (by omega)]
      exact hrl
    · have hcond2 : ¬ (0 ≤ M ∧ M < ((readLines (enforceLogLimit content M)).length : Int)) := by
        rw [hlen]
        omega
      conv_lhs => rw [enforceLogLimit]
      rw [if_neg hcond2]
  · have hcond : ¬ (0 ≤ M ∧ M < ((readLines content).length : Int)) := by
      omega
    have heq : enforceLogLimit content M = content := by
      simp only [enforceLogLimit, if_neg hcond]
    refine ⟨?_, ?_, ?_⟩
    · rw [heq]
      omega
    · rw [if_pos (by omega), heq]
    · rw [heq, heq]

/-- C1 witness: a three-line log trimmed to `M = 2` keeps the last two
lines (with the CR artifact) and a second call is a no-op. -/
theorem enforceLogLimit_retention_witness :
    (0 < (readLines (str "a\nb\nc\n")).length ∧ (0 : Int) < 2) ∧
    ((readLines (enforceLogLimit (str "a\nb\nc\n") 2)).length =
        min (readLines (str "a\nb\nc\n")).length (Int.toNat 2) ∧
    (if ((readLines (str "a\nb\nc\n")).length : Int) ≤ 2 then
        readLines (enforceLogLimit (str "a\nb\nc\n") 2) = readLines (str "a\nb\nc\n")
      else
        readLines (enforceLogLimit (str "a\nb\nc\n") 2) =
          ((readLines (str "a\nb\nc\n")).drop
            ((readLines (str "a\nb\nc\n")).length - Int.toNat 2)).map
            (fun l => l ++ ['\r'])) ∧
    enforceLogLimit (enforceLogLimit (str "a\nb\nc\n") 2) 2 =
      enforceLogLimit (str "a\nb\nc\n") 2) :=
  ⟨⟨by decide, by decide⟩,
    enforceLogLimit_retention (str "a\nb\nc\n") 2 (by decide) (by decide)⟩

/-- C1 counterexample: for the log `"a\nb\n"` (lines `a`, `b`) and limit
`M = 1`, one enforcement call does not leave the last `min(N, M)` lines of
the original: the rewrite stores `"b\r\n"`, whose single line is `"b\r"`,
not `"b"`. -/
theorem enforceLogLimit_crlf_counterexample :
    readLines (enforceLogLimit (str "a\nb\n") 1) ≠
      (readLines (str "a\nb\n")).drop ((readLines (str "a\nb\n")).length - 1) := by
  decide

/-- C7.  Saving a valid Config with `saveConfig` and loading the persisted
record back with `loadConfig` yields a Config equal to the original, for
every valid Config (non-empty name, positive line count, tap count 1 or 2,
sensitivity in the configured range 1..127). -/
theorem loadConfig_saveConfig_roundTrip (cur c : Config)
    (hname : c.trapName ≠ []) (hlc : 0 < c.lineCount)
    (htap : c.tapCount = 1 ∨ c.tapCount = 2)
    (hs1 : 1 ≤ c.sensitivity) (hs2 : c.sensitivity ≤ 127) :
    loadConfig cur (some (saveConfig c)) = c := by
  cases c
  simp [loadConfig, saveConfig]

/-- C7 witness: round trip at the boundary values tap count 2 and
sensitivity 127. -/
theorem loadConfig_saveConfig_roundTrip_witness :
    ((str "Trap_Default" : List Char) ≠ [] ∧ (0 : Int) < 50 ∧
      ((2 : Int) = 1 ∨ (2 : Int) = 2) ∧ (1 : Int) ≤ 127 ∧ (127 : Int) ≤ 127) ∧
    loadConfig initialConfigP1
        (some (saveConfig
          { trapName := str "Trap_Default", lineCount := 50,
            tapCount := 2, sensitivity := 127 })) =
      { trapName := str "Trap_Default", lineCount := 50,
        tapCount := 2, sensitivity := 127 } :=
  ⟨⟨by decide, by decide, by decide, by decide, by decide⟩,
    loadConfig_saveConfig_roundTrip initialConfigP1
      { trapName := str "Trap_Default", lineCount := 50,
        tapCount := 2, sensitivity := 127 }
      (by decide) (by decide) (by decide) (by decide) (by decide)⟩

/-- C9 counterexample: the first boot of the part_001 variant (no config
file yet) runs `loadConfig` — which persists the zero-initialized
`tapCount` — and then `loadSettings`, whose `doc["tapCount"] | 0` leaves
the in-memory `config.tapCount = 0`, outside `{1, 2}`. -/
theorem bootP1_tapCount_counterexample :
    (bootP1 none).tapCount = 0 ∧
      ¬ ((bootP1 none).tapCount = 1 ∨ (bootP1 none).tapCount = 2) := by
  decide

/-- C9 (amended).  Every dispatched command preserves
`tapCount ∈ {1,2}` and `sensitivity ∈ 1..127` (the `SET_TAP` and
`SET_SENSITIVITY` branches validate their argument before assigning), and
the part_002 `loadConfig` yields `tapCount ∈ {1,2}` whenever the stored
field is absent or itself in `{1,2}`; the part_001/Log_RTC_3
`loadSettings` boot path, however, can produce `tapCount = 0` (see the
counterexample). -/
theorem tapCount_invariant_amended :
    (∀ (st : SysState) (raw : List Char),
      (st.config.tapCount = 1 ∨ st.config.tapCount = 2) →
      1 ≤ st.config.sensitivity → st.config.sensitivity ≤ 127 →
      (((processCommand st raw).1.config.tapCount = 1 ∨
          (processCommand st raw).1.config.tapCount = 2) ∧
        1 ≤ (processCommand st raw).1.config.sensitivity ∧
        (processCommand st raw).1.config.sensitivity ≤ 127)) ∧
    (∀ (cur : Config) (d : ConfigDoc),
      (∀ v : Int, d.tapCount = some v → v = 1 ∨ v = 2) →
      ((loadConfig cur (some d)).tapCount = 1 ∨
        (loadConfig cur (some d)).tapCount = 2)) := by
  constructor
  · intro st raw htap hs1 hs2
    refine processCommandCases st raw
      (fun res => (res.1.config.tapCount = 1 ∨ res.1.config.tapCount = 2) ∧
        1 ≤ res.1.config.sensitivity ∧ res.1.config.sensitivity ≤ 127)
      ?_ ?_ ?_ ?_ ?_ ?_ ?_ ?_ ?_ ?_ ?_ ?_ ?_ ?_ ?_ ?_ ?_ ?_ ?_ ?_ ?_ ?_ ?_ ?_
    all_goals intros
    all_goals try exact ⟨htap, hs1, hs2⟩
    all_goals try (rename_i hv; exact ⟨hv, hs1, hs2⟩)
    all_goals (rename_i hv; exact ⟨htap, hv.1, hv.2⟩)
  · intro cur d hd
    cases hdt : d.tapCount with
    | none => simp [loadConfig, hdt]
    | some v =>
      have := hd v hdt
      simp [loadConfig, hdt]
      omega

/-- C9 witness: the preservation half applied to the concrete state `st0`
and the command `CLEAR_LOGS`. -/
theorem tapCount_invariant_amended_witness :
    ((st0.config.tapCount = 1 ∨ st0.config.tapCount = 2) ∧
      1 ≤ st0.config.sensitivity ∧ st0.config.sensitivity ≤ 127) ∧
    (((processCommand st0 (str "CLEAR_LOGS")).1.config.tapCount = 1 ∨
        (processCommand st0 (str "CLEAR_LOGS")).1.config.tapCount = 2) ∧
      1 ≤ (processCommand st0 (str "CLEAR_LOGS")).1.config.sensitivity ∧
      (processCommand st0 (str "CLEAR_LOGS")).1.config.sensitivity ≤ 127) :=
  ⟨⟨by decide, by decide, by decide⟩,
    tapCount_invariant_amended.1 st0 (str "CLEAR_LOGS")
      (by decide) (by decide) (by decide)⟩

/-- C6.  Dispatching any input whose trimmed form matches none of the
twelve grammar guards produces exactly the fixed unknown-command response
and leaves the whole state — in-memory Config, persisted Config, log
files, log path and RTC — unchanged. -/
theorem processCommand_unknownInert (st : SysState) (raw : List Char)
    (h : matchesGrammar (trimArd raw) = false) :
    processCommand st raw =
      (st, { bt := [str "Unknown command. Type HELP for list."],
             rtcAdjust := none }) := by
  simp only [matchesGrammar, Bool.or_eq_false_iff] at h
  obtain ⟨⟨⟨⟨⟨⟨⟨⟨⟨⟨⟨h1, h2⟩, h3⟩, h4⟩, h5⟩, h6⟩, h7⟩, h8⟩, h9⟩, h10⟩, h11⟩, h12⟩ := h
  simp only [processCommand, h1, h2, h3, h4, h5, h6, h7, h8, h9, h10, h11, h12]
  simp

/-- C6 witness: the input `FOO` matches no guard and is inert on `st0`. -/
theorem processCommand_unknownInert_witness :
    matchesGrammar (trimArd (str "FOO")) = false ∧
    processCommand st0 (str "FOO") =
      (st0, { bt := [str "Unknown command. Type HELP for list."],
              rtcAdjust := none }) :=
  ⟨by decide, processCommand_unknownInert st0 (str "FOO") (by decide)⟩

/-- Two contradictory Boolean facts prove anything. -/
theorem bool_contra {b : Bool} {C : Prop} (ht : b = true) (hf : b = false) : C :=
  False.elim (Bool.false_ne_true (hf ▸ ht))
/-- Dispatch equation: an input matching the `HELP` guard is handled by
that branch. -/
theorem dispatchHelp (st : SysState) (raw : List Char)
    (hm : eqIC (trimArd raw) (str "HELP") = true) :
    processCommand st raw =
    (st, { bt := helpLines, rtcAdjust := none }) := by
  refine processCommandCases st raw
    (fun res => res =
    (st, { bt := helpLines, rtcAdjust := none }))
    ?_ ?_ ?_ ?_ ?_ ?_ ?_ ?_ ?_ ?_ ?_ ?_ ?_ ?_ ?_ ?_ ?_ ?_ ?_ ?_ ?_ ?_ ?_ ?_
  · exact fun _ => rfl
  · exact fun _ h _ => bool_contra h (eqIC_false_of_eqIC (str "SHOW_LOGS") hm 0 (by decide))
  · exact fun _ _ h _ _ => bool_contra h (eqIC_false_of_eqIC (str "SHOW_LOGS") hm 0 (by decide))
  · exact fun _ _ h _ _ => bool_contra h (eqIC_false_of_eqIC (str "SHOW_LOGS") hm 0 (by decide))
  · exact fun _ _ h => bool_contra h (eqIC_false_of_eqIC (str "CLEAR_LOGS") hm 0 (by decide))
  · exact fun _ _ _ h => bool_contra h (eqIC_false_of_eqIC (str "SYNC_TIME") hm 0 (by decide))
  · exact fun _ _ _ _ h _ => bool_contra h (isPrefixOf_false_of_eqIC (str "SET_RTC") hm 0 (by decide) (by decide))
  · exact fun _ _ _ _ h _ _ => bool_contra h (isPrefixOf_false_of_eqIC (str "SET_RTC") hm 0 (by decide) (by decide))
  · exact fun _ _ _ _ h _ _ => bool_contra h (isPrefixOf_false_of_eqIC (str "SET_RTC") hm 0 (by decide) (by decide))
  · exact fun _ _ _ _ _ h => bool_contra h (eqIC_false_of_eqIC (str "READ_TIME") hm 0 (by decide))
  · exact fun _ _ _ _ _ _ h _ => bool_contra h (isPrefixOf_false_of_eqIC (str "SET_NAME") hm 0 (by decide) (by decide))
  · exact fun _ _ _ _ _ _ h _ => bool_contra h (isPrefixOf_false_of_eqIC (str "SET_NAME") hm 0 (by decide) (by decide))
  · exact fun _ _ _ _ _ _ _ h _ => bool_contra h (isPrefixOf_false_of_eqIC (str "SET_LINE_COUNT") hm 0 (by decide) (by decide))
  · exact fun _ _ _ _ _ _ _ h _ => bool_contra h (isPrefixOf_false_of_eqIC (str "SET_LINE_COUNT") hm 0 (by decide) (by decide))
  · exact fun _ _ _ _ _ _ _ _ h _ => bool_contra h (isPrefixOf_false_of_eqIC (str "ADD_NOTE") hm 0 (by decide) (by decide))
  · exact fun _ _ _ _ _ _ _ _ h _ => bool_contra h (isPrefixOf_false_of_eqIC (str "ADD_NOTE") hm 0 (by decide) (by decide))
  · exact fun _ _ _ _ _ _ _ _ _ h => bool_contra h (eqIC_false_of_eqIC (str "CURRENT_CONFIG") hm 0 (by decide))
  · exact fun _ _ _ _ _ _ _ _ _ _ h _ => bool_contra h (isPrefixOf_false_of_eqIC (str "SET_TAP") hm 0 (by decide) (by decide))
  · exact fun _ h _ _ => bool_contra h (isPrefixOf_false_of_eqIC (str "SET_TAP") hm 0 (by decide) (by decide))
  · exact fun _ h _ _ => bool_contra h (isPrefixOf_false_of_eqIC (str "SET_TAP") hm 0 (by decide) (by decide))
  · exact fun _ _ _ _ _ _ _ _ _ _ _ h _ => bool_contra h (isPrefixOf_false_of_eqIC (str "SET_SENSITIVITY") hm 0 (by decide) (by decide))
  · exact fun _ h _ _ => bool_contra h (isPrefixOf_false_of_eqIC (str "SET_SENSITIVITY") hm 0 (by decide) (by decide))
  · exact fun _ h _ _ => bool_contra h (isPrefixOf_false_of_eqIC (str "SET_SENSITIVITY") hm 0 (by decide) (by decide))
  · exact fun h _ _ _ _ _ _ _ _ _ _ _ => bool_contra hm h

/-- Dispatch equation: an input matching the `SHOW_LOGS` guard is handled by
that branch. -/
theorem dispatchShowLogs (st : SysState) (raw : List Char)
    (hm : eqIC (trimArd raw) (str "SHOW_LOGS") = true) :
    processCommand st raw =
    (match fsRead st.files st.logFilePath with
      | none => (st, { bt := [str "No logs found."], rtcAdjust := none })
      | some content =>
        if content.length = 0 then
          (st, { bt := [str "No logs found."], rtcAdjust := none })
        else (st, { bt := [content], rtcAdjust := none })) := by
  refine processCommandCases st raw
    (fun res => res =
    (match fsRead st.files st.logFilePath with
      | none => (st, { bt := [str "No logs found."], rtcAdjust := none })
      | some content =>
        if content.length = 0 then
          (st, { bt := [str "No logs found."], rtcAdjust := none })
        else (st, { bt := [content], rtcAdjust := none })))
    ?_ ?_ ?_ ?_ ?_ ?_ ?_ ?_ ?_ ?_ ?_ ?_ ?_ ?_ ?_ ?_ ?_ ?_ ?_ ?_ ?_ ?_ ?_ ?_
  · exact fun h => bool_contra h (eqIC_false_of_eqIC (str "HELP") hm 0 (by decide))
  · intro _ _ hfs; rw [hfs]
  · intro content _ _ hfs hlen; simp only [hfs]; rw [if_pos hlen]
  · intro content _ _ hfs hlen; simp only [hfs]; rw [if_neg hlen]
  · exact fun _ _ h => bool_contra h (eqIC_false_of_eqIC (str "CLEAR_LOGS") hm 0 (by decide))
  · exact fun _ _ _ h => bool_contra h (eqIC_false_of_eqIC (str "SYNC_TIME") hm 1 (by decide))
  · exact fun _ _ _ _ h _ => bool_contra h (isPrefixOf_false_of_eqIC (str "SET_RTC") hm 1 (by decide) (by decide))
  · exact fun _ _ _ _ h _ _ => bool_contra h (isPrefixOf_false_of_eqIC (str "SET_RTC") hm 1 (by decide) (by decide))
  · exact fun _ _ _ _ h _ _ => bool_contra h (isPrefixOf_false_of_eqIC (str "SET_RTC") hm 1 (by decide) (by decide))
  · exact fun _ _ _ _ _ h => bool_contra h (eqIC_false_of_eqIC (str "READ_TIME") hm 0 (by decide))
  · exact fun _ _ _ _ _ _ h _ => bool_contra h (isPrefixOf_false_of_eqIC (str "SET_NAME") hm 1 (by decide) (by decide))
  · exact fun _ _ _ _ _ _ h _ => bool_contra h (isPrefixOf_false_of_eqIC (str "SET_NAME") hm 1 (by decide) (by decide))
  · exact fun _ _ _ _ _ _ _ h _ => bool_contra h (isPrefixOf_false_of_eqIC (str "SET_LINE_COUNT") hm 1 (by decide) (by decide))
  · exact fun _ _ _ _ _ _ _ h _ => bool_contra h (isPrefixOf_false_of_eqIC (str "SET_LINE_COUNT") hm 1 (by decide) (by decide))
  · exact fun _ _ _ _ _ _ _ _ h _ => bool_contra h (isPrefixOf_false_of_eqIC (str "ADD_NOTE") hm 0 (by decide) (by decide))
  · exact fun _ _ _ _ _ _ _ _ h _ => bool_contra h (isPrefixOf_false_of_eqIC (str "ADD_NOTE") hm 0 (by decide) (by decide))
  · exact fun _ _ _ _ _ _ _ _ _ h => bool_contra h (eqIC_false_of_eqIC (str "CURRENT_CONFIG") hm 0 (by decide))
  · exact fun _ _ _ _ _ _ _ _ _ _ h _ => bool_contra h (isPrefixOf_false_of_eqIC (str "SET_TAP") hm 1 (by decide) (by decide))
  · exact fun _ h _ _ => bool_contra h (isPrefixOf_false_of_eqIC (str "SET_TAP") hm 1 (by decide) (by decide))
  · exact fun _ h _ _ => bool_contra h (isPrefixOf_false_of_eqIC (str "SET_TAP") hm 1 (by decide) (by decide))
  · exact fun _ _ _ _ _ _ _ _ _ _ _ h _ => bool_contra h (isPrefixOf_false_of_eqIC (str "SET_SENSITIVITY") hm 1 (by decide) (by decide))
  · exact fun _ h _ _ => bool_contra h (isPrefixOf_false_of_eqIC (str "SET_SENSITIVITY") hm 1 (by decide) (by decide))
  · exact fun _ h _ _ => bool_contra h (isPrefixOf_false_of_eqIC (str "SET_SENSITIVITY") hm 1 (by decide) (by decide))
  · exact fun _ h _ _ _ _ _ _ _ _ _ _ => bool_contra hm h

/-- Dispatch equation: an input matching the `CLEAR_LOGS` guard is handled by
that branch. -/
theorem dispatchClearLogs (st : SysState) (raw : List Char)
    (hm : eqIC (trimArd raw) (str "CLEAR_LOGS") = true) :
    processCommand st raw =
    ({ st with files := fsRemove st.files st.logFilePath },
      { bt := [str "Logs cleared."], rtcAdjust := none }) := by
  refine processCommandCases st raw
    (fun res => res =
    ({ st with files := fsRemove st.files st.logFilePath },
      { bt := [str "Logs cleared."], rtcAdjust := none }))
    ?_ ?_ ?_ ?_ ?_ ?_ ?_ ?_ ?_ ?_ ?_ ?_ ?_ ?_ ?_ ?_ ?_ ?_ ?_ ?_ ?_ ?_ ?_ ?_
  · exact fun h => bool_contra h (eqIC_false_of_eqIC (str "HELP") hm 0 (by decide))
  · exact fun _ h _ => bool_contra h (eqIC_false_of_eqIC (str "SHOW_LOGS") hm 0 (by decide))
  · exact fun _ _ h _ _ => bool_contra h (eqIC_false_of_eqIC (str "SHOW_LOGS") hm 0 (by decide))
  · exact fun _ _ h _ _ => bool_contra h (eqIC_false_of_eqIC (str "SHOW_LOGS") hm 0 (by decide))
  · exact fun _ _ _ => rfl
  · exact fun _ _ _ h => bool_contra h (eqIC_false_of_eqIC (str "SYNC_TIME") hm 0 (by decide))
  · exact fun _ _ _ _ h _ => bool_contra h (isPrefixOf_false_of_eqIC (str "SET_RTC") hm 0 (by decide) (by decide))
  · exact fun _ _ _ _ h _ _ => bool_contra h (isPrefixOf_false_of_eqIC (str "SET_RTC") hm 0 (by decide) (by decide))
  · exact fun _ _ _ _ h _ _ => bool_contra h (isPrefixOf_false_of_eqIC (str "SET_RTC") hm 0 (by decide) (by decide))
  · exact fun _ _ _ _ _ h => bool_contra h (eqIC_false_of_eqIC (str "READ_TIME") hm 0 (by decide))
  · exact fun _ _ _ _ _ _ h _ => bool_contra h (isPrefixOf_false_of_eqIC (str "SET_NAME") hm 0 (by decide) (by decide))
  · exact fun _ _ _ _ _ _ h _ => bool_contra h (isPrefixOf_false_of_eqIC (str "SET_NAME") hm 0 (by decide) (by decide))
  · exact fun _ _ _ _ _ _ _ h _ => bool_contra h (isPrefixOf_false_of_eqIC (str "SET_LINE_COUNT") hm 0 (by decide) (by decide))
  · exact fun _ _ _ _ _ _ _ h _ => bool_contra h (isPrefixOf_false_of_eqIC (str "SET_LINE_COUNT") hm 0 (by decide) (by decide))
  · exact fun _ _ _ _ _ _ _ _ h _ => bool_contra h (isPrefixOf_false_of_eqIC (str "ADD_NOTE") hm 0 (by decide) (by decide))
  · exact fun _ _ _ _ _ _ _ _ h _ => bool_contra h (isPrefixOf_false_of_eqIC (str "ADD_NOTE") hm 0 (by decide) (by decide))
  · exact fun _ _ _ _ _ _ _ _ _ h => bool_contra h (eqIC_false_of_eqIC (str "CURRENT_CONFIG") hm 1 (by decide))
  · exact fun _ _ _ _ _ _ _ _ _ _ h _ => bool_contra h (isPrefixOf_false_of_eqIC (str "SET_TAP") hm 0 (by decide) (by decide))
  · exact fun _ h _ _ => bool_contra h (isPrefixOf_false_of_eqIC (str "SET_TAP") hm 0 (by decide) (by decide))
  · exact fun _ h _ _ => bool_contra h (isPrefixOf_false_of_eqIC (str "SET_TAP") hm 0 (by decide) (by decide))
  · exact fun _ _ _ _ _ _ _ _ _ _ _ h _ => bool_contra h (isPrefixOf_false_of_eqIC (str "SET_SENSITIVITY") hm 0 (by decide) (by decide))
  · exact fun _ h _ _ => bool_contra h (isPrefixOf_false_of_eqIC (str "SET_SENSITIVITY") hm 0 (by decide) (by decide))
  · exact fun _ h _ _ => bool_contra h (isPrefixOf_false_of_eqIC (str "SET_SENSITIVITY") hm 0 (by decide) (by decide))
  · exact fun _ _ h _ _ _ _ _ _ _ _ _ => bool_contra hm h

/-- Dispatch equation: an input matching the `SYNC_TIME` guard is handled by
that branch. -/
theorem dispatchSyncTime (st : SysState) (raw : List Char)
    (hm : eqIC (trimArd raw) (str "SYNC_TIME") = true) :
    processCommand st raw =
    (st, { bt := [str "System time synced with RTC."], rtcAdjust := none }) := by
  refine processCommandCases st raw
    (fun res => res =
    (st, { bt := [str "System time synced with RTC."], rtcAdjust := none }))
    ?_ ?_ ?_ ?_ ?_ ?_ ?_ ?_ ?_ ?_ ?_ ?_ ?_ ?_ ?_ ?_ ?_ ?_ ?_ ?_ ?_ ?_ ?_ ?_
  · exact fun h => bool_contra h (eqIC_false_of_eqIC (str "HELP") hm 0 (by decide))
  · exact fun _ h _ => bool_contra h (eqIC_false_of_eqIC (str "SHOW_LOGS") hm 1 (by decide))
  · exact fun _ _ h _ _ => bool_contra h (eqIC_false_of_eqIC (str "SHOW_LOGS") hm 1 (by decide))
  · exact fun _ _ h _ _ => bool_contra h (eqIC_false_of_eqIC (str "SHOW_LOGS") hm 1 (by decide))
  · exact fun _ _ h => bool_contra h (eqIC_false_of_eqIC (str "CLEAR_LOGS") hm 0 (by decide))
  · exact fun _ _ _ _ => rfl
  · exact fun _ _ _ _ h _ => bool_contra h (isPrefixOf_false_of_eqIC (str "SET_RTC") hm 1 (by decide) (by decide))
  · exact fun _ _ _ _ h _ _ => bool_contra h (isPrefixOf_false_of_eqIC (str "SET_RTC") hm 1 (by decide) (by decide))
  · exact fun _ _ _ _ h _ _ => bool_contra h (isPrefixOf_false_of_eqIC (str "SET_RTC") hm 1 (by decide) (by decide))
  · exact fun _ _ _ _ _ h => bool_contra h (eqIC_false_of_eqIC (str "READ_TIME") hm 0 (by decide))
  · exact fun _ _ _ _ _ _ h _ => bool_contra h (isPrefixOf_false_of_eqIC (str "SET_NAME") hm 1 (by decide) (by decide))
  · exact fun _ _ _ _ _ _ h _ => bool_contra h (isPrefixOf_false_of_eqIC (str "SET_NAME") hm 1 (by decide) (by decide))
  · exact fun _ _ _ _ _ _ _ h _ => bool_contra h (isPrefixOf_false_of_eqIC (str "SET_LINE_COUNT") hm 1 (by decide) (by decide))
  · exact fun _ _ _ _ _ _ _ h _ => bool_contra h (isPrefixOf_false_of_eqIC (str "SET_LINE_COUNT") hm 1 (by decide) (by decide))
  · exact fun _ _ _ _ _ _ _ _ h _ => bool_contra h (isPrefixOf_false_of_eqIC (str "ADD_NOTE") hm 0 (by decide) (by decide))
  · exact fun _ _ _ _ _ _ _ _ h _ => bool_contra h (isPrefixOf_false_of_eqIC (str "ADD_NOTE") hm 0 (by decide) (by decide))
  · exact fun _ _ _ _ _ _ _ _ _ h => bool_contra h (eqIC_false_of_eqIC (str "CURRENT_CONFIG") hm 0 (by decide))
  · exact fun _ _ _ _ _ _ _ _ _ _ h _ => bool_contra h (isPrefixOf_false_of_eqIC (str "SET_TAP") hm 1 (by decide) (by decide))
  · exact fun _ h _ _ => bool_contra h (isPrefixOf_false_of_eqIC (str "SET_TAP") hm 1 (by decide) (by decide))
  · exact fun _ h _ _ => bool_contra h (isPrefixOf_false_of_eqIC (str "SET_TAP") hm 1 (by decide) (by decide))
  · exact fun _ _ _ _ _ _ _ _ _ _ _ h _ => bool_contra h (isPrefixOf_false_of_eqIC (str "SET_SENSITIVITY") hm 1 (by decide) (by decide))
  · exact fun _ h _ _ => bool_contra h (isPrefixOf_false_of_eqIC (str "SET_SENSITIVITY") hm 1 (by decide) (by decide))
  · exact fun _ h _ _ => bool_contra h (isPrefixOf_false_of_eqIC (str "SET_SENSITIVITY") hm 1 (by decide) (by decide))
  · exact fun _ _ _ h _ _ _ _ _ _ _ _ => bool_contra hm h

/-- Dispatch equation: an input matching the `SET_RTC` guard is handled by
that branch. -/
theorem dispatchSetRtc (st : SysState) (raw : List Char)
    (hm : (str "SET_RTC").isPrefixOf (trimArd raw) = true) :
    processCommand st raw =
    (if (trimArd ((trimArd raw).drop 8)).length < 19 then
        (st, { bt := [str "Invalid format. Use: SET_RTC YYYY-MM-DD HH:MM:SS"],
               rtcAdjust := none })
      else if rtcSepOk (trimArd ((trimArd raw).drop 8)) = false then
        (st, { bt := [str "Invalid format. Use: SET_RTC YYYY-MM-DD HH:MM:SS"],
               rtcAdjust := none })
      else
        ({ st with rtcTime := parseRtc (trimArd ((trimArd raw).drop 8)) },
          { bt := [str "RTC updated."],
            rtcAdjust := some (parseRtc (trimArd ((trimArd raw).drop 8))) })) := by
  refine processCommandCases st raw
    (fun res => res =
    (if (trimArd ((trimArd raw).drop 8)).length < 19 then
        (st, { bt := [str "Invalid format. Use: SET_RTC YYYY-MM-DD HH:MM:SS"],
               rtcAdjust := none })
      else if rtcSepOk (trimArd ((trimArd raw).drop 8)) = false then
        (st, { bt := [str "Invalid format. Use: SET_RTC YYYY-MM-DD HH:MM:SS"],
               rtcAdjust := none })
      else
        ({ st with rtcTime := parseRtc (trimArd ((trimArd raw).drop 8)) },
          { bt := [str "RTC updated."],
            rtcAdjust := some (parseRtc (trimArd ((trimArd raw).drop 8))) })))
    ?_ ?_ ?_ ?_ ?_ ?_ ?_ ?_ ?_ ?_ ?_ ?_ ?_ ?_ ?_ ?_ ?_ ?_ ?_ ?_ ?_ ?_ ?_ ?_
  · exact fun h => bool_contra h (eqIC_false_of_isPrefixOf (str "HELP") hm 0 (by decide) (by decide))
  · exact fun _ h _ => bool_contra h (eqIC_false_of_isPrefixOf (str "SHOW_LOGS") hm 1 (by decide) (by decide))
  · exact fun _ _ h _ _ => bool_contra h (eqIC_false_of_isPrefixOf (str "SHOW_LOGS") hm 1 (by decide) (by decide))
  · exact fun _ _ h _ _ => bool_contra h (eqIC_false_of_isPrefixOf (str "SHOW_LOGS") hm 1 (by decide) (by decide))
  · exact fun _ _ h => bool_contra h (eqIC_false_of_isPrefixOf (str "CLEAR_LOGS") hm 0 (by decide) (by decide))
  · exact fun _ _ _ h => bool_contra h (eqIC_false_of_isPrefixOf (str "SYNC_TIME") hm 1 (by decide) (by decide))
  · intro _ _ _ _ _ hl; rw [if_pos hl]
  · intro _ _ _ _ _ hl hsep; rw [if_neg hl, if_pos hsep]
  · intro _ _ _ _ _ hl hsep; rw [if_neg hl, if_neg hsep]
  · exact fun _ _ _ _ _ h => bool_contra h (eqIC_false_of_isPrefixOf (str "READ_TIME") hm 0 (by decide) (by decide))
  · exact fun _ _ _ _ _ _ h _ => bool_contra h (isPrefixOf_false_of_isPrefixOf (str "SET_NAME") hm 4 (by decide) (by decide) (by decide))
  · exact fun _ _ _ _ _ _ h _ => bool_contra h (isPrefixOf_false_of_isPrefixOf (str "SET_NAME") hm 4 (by decide) (by decide) (by decide))
  · exact fun _ _ _ _ _ _ _ h _ => bool_contra h (isPrefixOf_false_of_isPrefixOf (str "SET_LINE_COUNT") hm 4 (by decide) (by decide) (by decide))
  · exact fun _ _ _ _ _ _ _ h _ => bool_contra h (isPrefixOf_false_of_isPrefixOf (str "SET_LINE_COUNT") hm 4 (by decide) (by decide) (by decide))
  · exact fun _ _ _ _ _ _ _ _ h _ => bool_contra h (isPrefixOf_false_of_isPrefixOf (str "ADD_NOTE") hm 0 (by decide) (by decide) (by decide))
  · exact fun _ _ _ _ _ _ _ _ h _ => bool_contra h (isPrefixOf_false_of_isPrefixOf (str "ADD_NOTE") hm 0 (by decide) (by decide) (by decide))
  · exact fun _ _ _ _ _ _ _ _ _ h => bool_contra h (eqIC_false_of_isPrefixOf (str "CURRENT_CONFIG") hm 0 (by decide) (by decide))
  · exact fun _ _ _ _ _ _ _ _ _ _ h _ => bool_contra h (isPrefixOf_false_of_isPrefixOf (str "SET_TAP") hm 4 (by decide) (by decide) (by decide))
  · exact fun _ h _ _ => bool_contra h (isPrefixOf_false_of_isPrefixOf (str "SET_TAP") hm 4 (by decide) (by decide) (by decide))
  · exact fun _ h _ _ => bool_contra h (isPrefixOf_false_of_isPrefixOf (str "SET_TAP") hm 4 (by decide) (by decide) (by decide))
  · exact fun _ _ _ _ _ _ _ _ _ _ _ h _ => bool_contra h (isPrefixOf_false_of_isPrefixOf (str "SET_SENSITIVITY") hm 4 (by decide) (by decide) (by decide))
  · exact fun _ h _ _ => bool_contra h (isPrefixOf_false_of_isPrefixOf (str "SET_SENSITIVITY") hm 4 (by decide) (by decide) (by decide))
  · exact fun _ h _ _ => bool_contra h (isPrefixOf_false_of_isPrefixOf (str "SET_SENSITIVITY") hm 4 (by decide) (by decide) (by decide))
  · exact fun _ _ _ _ h _ _ _ _ _ _ _ => bool_contra hm h

/-- Dispatch equation: an input matching the `READ_TIME` guard is handled by
that branch. -/
theorem dispatchReadTime (st : SysState) (raw : List Char)
    (hm : eqIC (trimArd raw) (str "READ_TIME") = true) :
    processCommand st raw =
    (st, { bt := [str "RTC Time: " ++ fmtTime st.rtcTime], rtcAdjust := none }) := by
  refine processCommandCases st raw
    (fun res => res =
    (st, { bt := [str "RTC Time: " ++ fmtTime st.rtcTime], rtcAdjust := none }))
    ?_ ?_ ?_ ?_ ?_ ?_ ?_ ?_ ?_ ?_ ?_ ?_ ?_ ?_ ?_ ?_ ?_ ?_ ?_ ?_ ?_ ?_ ?_ ?_
  · exact fun h => bool_contra h (eqIC_false_of_eqIC (str "HELP") hm 0 (by decide))
  · exact fun _ h _ => bool_contra h (eqIC_false_of_eqIC (str "SHOW_LOGS") hm 0 (by decide))
  · exact fun _ _ h _ _ => bool_contra h (eqIC_false_of_eqIC (str "SHOW_LOGS") hm 0 (by decide))
  · exact fun _ _ h _ _ => bool_contra h (eqIC_false_of_eqIC (str "SHOW_LOGS") hm 0 (by decide))
  · exact fun _ _ h => bool_contra h (eqIC_false_of_eqIC (str "CLEAR_LOGS") hm 0 (by decide))
  · exact fun _ _ _ h => bool_contra h (eqIC_false_of_eqIC (str "SYNC_TIME") hm 0 (by decide))
  · exact fun _ _ _ _ h _ => bool_contra h (isPrefixOf_false_of_eqIC (str "SET_RTC") hm 0 (by decide) (by decide))
  · exact fun _ _ _ _ h _ _ => bool_contra h (isPrefixOf_false_of_eqIC (str "SET_RTC") hm 0 (by decide) (by decide))
  · exact fun _ _ _ _ h _ _ => bool_contra h (isPrefixOf_false_of_eqIC (str "SET_RTC") hm 0 (by decide) (by decide))
  · exact fun _ _ _ _ _ _ => rfl
  · exact fun _ _ _ _ _ _ h _ => bool_contra h (isPrefixOf_false_of_eqIC (str "SET_NAME") hm 0 (by decide) (by decide))
  · exact fun _ _ _ _ _ _ h _ => bool_contra h (isPrefixOf_false_of_eqIC (str "SET_NAME") hm 0 (by decide) (by decide))
  · exact fun _ _ _ _ _ _ _ h _ => bool_contra h (isPrefixOf_false_of_eqIC (str "SET_LINE_COUNT") hm 0 (by decide) (by decide))
  · exact fun _ _ _ _ _ _ _ h _ => bool_contra h (isPrefixOf_false_of_eqIC (str "SET_LINE_COUNT") hm 0 (by decide) (by decide))
  · exact fun _ _ _ _ _ _ _ _ h _ => bool_contra h (isPrefixOf_false_of_eqIC (str "ADD_NOTE") hm 0 (by decide) (by decide))
  · exact fun _ _ _ _ _ _ _ _ h _ => bool_contra h (isPrefixOf_false_of_eqIC (str "ADD_NOTE") hm 0 (by decide) (by decide))
  · exact fun _ _ _ _ _ _ _ _ _ h => bool_contra h (eqIC_false_of_eqIC (str "CURRENT_CONFIG") hm 0 (by decide))
  · exact fun _ _ _ _ _ _ _ _ _ _ h _ => bool_contra h (isPrefixOf_false_of_eqIC (str "SET_TAP") hm 0 (by decide) (by decide))
  · exact fun _ h _ _ => bool_contra h (isPrefixOf_false_of_eqIC (str "SET_TAP") hm 0 (by decide) (by decide))
  · exact fun _ h _ _ => bool_contra h (isPrefixOf_false_of_eqIC (str "SET_TAP") hm 0 (by decide) (by decide))
  · exact fun _ _ _ _ _ _ _ _ _ _ _ h _ => bool_contra h (isPrefixOf_false_of_eqIC (str "SET_SENSITIVITY") hm 0 (by decide) (by decide))
  · exact fun _ h _ _ => bool_contra h (isPrefixOf_false_of_eqIC (str "SET_SENSITIVITY") hm 0 (by decide) (by decide))
  · exact fun _ h _ _ => bool_contra h (isPrefixOf_false_of_eqIC (str "SET_SENSITIVITY") hm 0 (by decide) (by decide))
  · exact fun _ _ _ _ _ h _ _ _ _ _ _ => bool_contra hm h

/-- Dispatch equation: an input matching the `SET_NAME` guard is handled by
that branch. -/
theorem dispatchSetName (st : SysState) (raw : List Char)
    (hm : (str "SET_NAME").isPrefixOf (trimArd raw) = true) :
    processCommand st raw =
    (if (trimArd ((trimArd raw).drop 8)).length = 0 then
        (st, { bt := [str "Name cannot be empty."], rtcAdjust := none })
      else
        ({ st with
            config := { st.config with trapName := trimArd ((trimArd raw).drop 8) }
            files := fsRemove st.files st.logFilePath
            logFilePath := updateLogFilePath (trimArd ((trimArd raw).drop 8))
            persisted := some (saveConfig
              { st.config with trapName := trimArd ((trimArd raw).drop 8) }) },
          { bt := [str "Trap name updated to: " ++ trimArd ((trimArd raw).drop 8)],
            rtcAdjust := none })) := by
  refine processCommandCases st raw
    (fun res => res =
    (if (trimArd ((trimArd raw).drop 8)).length = 0 then
        (st, { bt := [str "Name cannot be empty."], rtcAdjust := none })
      else
        ({ st with
            config := { st.config with trapName := trimArd ((trimArd raw).drop 8) }
            files := fsRemove st.files st.logFilePath
            logFilePath := updateLogFilePath (trimArd ((trimArd raw).drop 8))
            persisted := some (saveConfig
              { st.config with trapName := trimArd ((trimArd raw).drop 8) }) },
          { bt := [str "Trap name updated to: " ++ trimArd ((trimArd raw).drop 8)],
            rtcAdjust := none })))
    ?_ ?_ ?_ ?_ ?_ ?_ ?_ ?_ ?_ ?_ ?_ ?_ ?_ ?_ ?_ ?_ ?_ ?_ ?_ ?_ ?_ ?_ ?_ ?_
  · exact fun h => bool_contra h (eqIC_false_of_isPrefixOf (str "HELP") hm 0 (by decide) (by decide))
  · exact fun _ h _ => bool_contra h (eqIC_false_of_isPrefixOf (str "SHOW_LOGS") hm 1 (by decide) (by decide))
  · exact fun _ _ h _ _ => bool_contra h (eqIC_false_of_isPrefixOf (str "SHOW_LOGS") hm 1 (by decide) (by decide))
  · exact fun _ _ h _ _ => bool_contra h (eqIC_false_of_isPrefixOf (str "SHOW_LOGS") hm 1 (by decide) (by decide))
  · exact fun _ _ h => bool_contra h (eqIC_false_of_isPrefixOf (str "CLEAR_LOGS") hm 0 (by decide) (by decide))
  · exact fun _ _ _ h => bool_contra h (eqIC_false_of_isPrefixOf (str "SYNC_TIME") hm 1 (by decide) (by decide))
  · exact fun _ _ _ _ h _ => bool_contra h (isPrefixOf_false_of_isPrefixOf (str "SET_RTC") hm 4 (by decide) (by decide) (by decide))
  · exact fun _ _ _ _ h _ _ => bool_contra h (isPrefixOf_false_of_isPrefixOf (str "SET_RTC") hm 4 (by decide) (by decide) (by decide))
  · exact fun _ _ _ _ h _ _ => bool_contra h (isPrefixOf_false_of_isPrefixOf (str "SET_RTC") hm 4 (by decide) (by decide) (by decide))
  · exact fun _ _ _ _ _ h => bool_contra h (eqIC_false_of_isPrefixOf (str "READ_TIME") hm 0 (by decide) (by decide))
  · intro _ _ _ _ _ _ _ hl; rw [if_pos hl]
  · intro _ _ _ _ _ _ _ hl; rw [if_neg hl]
  · exact fun _ _ _ _ _ _ _ h _ => bool_contra h (isPrefixOf_false_of_isPrefixOf (str "SET_LINE_COUNT") hm 4 (by decide) (by decide) (by decide))
  · exact fun _ _ _ _ _ _ _ h _ => bool_contra h (isPrefixOf_false_of_isPrefixOf (str "SET_LINE_COUNT") hm 4 (by decide) (by decide) (by decide))
  · exact fun _ _ _ _ _ _ _ _ h _ => bool_contra h (isPrefixOf_false_of_isPrefixOf (str "ADD_NOTE") hm 0 (by decide) (by decide) (by decide))
  · exact fun _ _ _ _ _ _ _ _ h _ => bool_contra h (isPrefixOf_false_of_isPrefixOf (str "ADD_NOTE") hm 0 (by decide) (by decide) (by decide))
  · exact fun _ _ _ _ _ _ _ _ _ h => bool_contra h (eqIC_false_of_isPrefixOf (str "CURRENT_CONFIG") hm 0 (by decide) (by decide))
  · exact fun _ _ _ _ _ _ _ _ _ _ h _ => bool_contra h (isPrefixOf_false_of_isPrefixOf (str "SET_TAP") hm 4 (by decide) (by decide) (by decide))
  · exact fun _ h _ _ => bool_contra h (isPrefixOf_false_of_isPrefixOf (str "SET_TAP") hm 4 (by decide) (by decide) (by decide))
  · exact fun _ h _ _ => bool_contra h (isPrefixOf_false_of_isPrefixOf (str "SET_TAP") hm 4 (by decide) (by decide) (by decide))
  · exact fun _ _ _ _ _ _ _ _ _ _ _ h _ => bool_contra h (isPrefixOf_false_of_isPrefixOf (str "SET_SENSITIVITY") hm 4 (by decide) (by decide) (by decide))
  · exact fun _ h _ _ => bool_contra h (isPrefixOf_false_of_isPrefixOf (str "SET_SENSITIVITY") hm 4 (by decide) (by decide) (by decide))
  · exact fun _ h _ _ => bool_contra h (isPrefixOf_false_of_isPrefixOf (str "SET_SENSITIVITY") hm 4 (by decide) (by decide) (by decide))
  · exact fun _ _ _ _ _ _ h _ _ _ _ _ => bool_contra hm h

/-- Dispatch equation: an input matching the `CURRENT_CONFIG` guard is handled by
that branch. -/
theorem dispatchCurrentConfig (st : SysState) (raw : List Char)
    (hm : eqIC (trimArd raw) (str "CURRENT_CONFIG") = true) :
    processCommand st raw =
    (st,
      { bt :=
          [ str "===== Current Configuration ====="
          , str "Trap Name: " ++ st.config.trapName
          , str "RTC Time: " ++ fmtTime st.rtcTime
          , str "Max Log Lines: " ++ (toString st.config.lineCount).data
          , str "MAC Address: " ++ st.mac
          , str "Tap Detection: " ++
              (if st.config.tapCount = 1 then str "Single Tap" else str "Double Tap")
          , str "Tap Sensitivity: " ++ (toString st.config.sensitivity).data ]
        rtcAdjust := none }) := by
  refine processCommandCases st raw
    (fun res => res =
    (st,
      { bt :=
          [ str "===== Current Configuration ====="
          , str "Trap Name: " ++ st.config.trapName
          , str "RTC Time: " ++ fmtTime st.rtcTime
          , str "Max Log Lines: " ++ (toString st.config.lineCount).data
          , str "MAC Address: " ++ st.mac
          , str "Tap Detection: " ++
              (if st.config.tapCount = 1 then str "Single Tap" else str "Double Tap")
          , str "Tap Sensitivity: " ++ (toString st.config.sensitivity).data ]
        rtcAdjust := none }))
    ?_ ?_ ?_ ?_ ?_ ?_ ?_ ?_ ?_ ?_ ?_ ?_ ?_ ?_ ?_ ?_ ?_ ?_ ?_ ?_ ?_ ?_ ?_ ?_
  · exact fun h => bool_contra h (eqIC_false_of_eqIC (str "HELP") hm 0 (by decide))
  · exact fun _ h _ => bool_contra h (eqIC_false_of_eqIC (str "SHOW_LOGS") hm 0 (by decide))
  · exact fun _ _ h _ _ => bool_contra h (eqIC_false_of_eqIC (str "SHOW_LOGS") hm 0 (by decide))
  · exact fun _ _ h _ _ => bool_contra h (eqIC_false_of_eqIC (str "SHOW_LOGS") hm 0 (by decide))
  · exact fun _ _ h => bool_contra h (eqIC_false_of_eqIC (str "CLEAR_LOGS") hm 1 (by decide))
  · exact fun _ _ _ h => bool_contra h (eqIC_false_of_eqIC (str "SYNC_TIME") hm 0 (by decide))
  · exact fun _ _ _ _ h _ => bool_contra h (isPrefixOf_false_of_eqIC (str "SET_RTC") hm 0 (by decide) (by decide))
  · exact fun _ _ _ _ h _ _ => bool_contra h (isPrefixOf_false_of_eqIC (str "SET_RTC") hm 0 (by decide) (by decide))
  · exact fun _ _ _ _ h _ _ => bool_contra h (isPrefixOf_false_of_eqIC (str "SET_RTC") hm 0 (by decide) (by decide))
  · exact fun _ _ _ _ _ h => bool_contra h (eqIC_false_of_eqIC (str "READ_TIME") hm 0 (by decide))
  · exact fun _ _ _ _ _ _ h _ => bool_contra h (isPrefixOf_false_of_eqIC (str "SET_NAME") hm 0 (by decide) (by decide))
  · exact fun _ _ _ _ _ _ h _ => bool_contra h (isPrefixOf_false_of_eqIC (str "SET_NAME") hm 0 (by decide) (by decide))
  · exact fun _ _ _ _ _ _ _ h _ => bool_contra h (isPrefixOf_false_of_eqIC (str "SET_LINE_COUNT") hm 0 (by decide) (by decide))
  · exact fun _ _ _ _ _ _ _ h _ => bool_contra h (isPrefixOf_false_of_eqIC (str "SET_LINE_COUNT") hm 0 (by decide) (by decide))
  · exact fun _ _ _ _ _ _ _ _ h _ => bool_contra h (isPrefixOf_false_of_eqIC (str "ADD_NOTE") hm 0 (by decide) (by decide))
  · exact fun _ _ _ _ _ _ _ _ h _ => bool_contra h (isPrefixOf_false_of_eqIC (str "ADD_NOTE") hm 0 (by decide) (by decide))
  · exact fun _ _ _ _ _ _ _ _ _ _ => rfl
  · exact fun _ _ _ _ _ _ _ _ _ _ h _ => bool_contra h (isPrefixOf_false_of_eqIC (str "SET_TAP") hm 0 (by decide) (by decide))
  · exact fun _ h _ _ => bool_contra h (isPrefixOf_false_of_eqIC (str "SET_TAP") hm 0 (by decide) (by decide))
  · exact fun _ h _ _ => bool_contra h (isPrefixOf_false_of_eqIC (str "SET_TAP") hm 0 (by decide) (by decide))
  · exact fun _ _ _ _ _ _ _ _ _ _ _ h _ => bool_contra h (isPrefixOf_false_of_eqIC (str "SET_SENSITIVITY") hm 0 (by decide) (by decide))
  · exact fun _ h _ _ => bool_contra h (isPrefixOf_false_of_eqIC (str "SET_SENSITIVITY") hm 0 (by decide) (by decide))
  · exact fun _ h _ _ => bool_contra h (isPrefixOf_false_of_eqIC (str "SET_SENSITIVITY") hm 0 (by decide) (by decide))
  · exact fun _ _ _ _ _ _ _ _ _ h _ _ => bool_contra hm h

/-- Dispatch equation: an input matching the `SET_TAP` guard is handled by
that branch. -/
theorem dispatchSetTap (st : SysState) (raw : List Char)
    (hm : (str "SET_TAP").isPrefixOf (trimArd raw) = true) :
    processCommand st raw =
    (match indexOfSpace (trimArd raw) with
      | none => (st, { bt := [], rtcAdjust := none })
      | some spaceIndex =>
        if toIntArd ((trimArd raw).drop (spaceIndex + 1)) = 1 ∨
            toIntArd ((trimArd raw).drop (spaceIndex + 1)) = 2 then
          ({ st with
              config := { st.config with
                tapCount := toIntArd ((trimArd raw).drop (spaceIndex + 1)) }
              persisted := some (saveConfig
                { st.config with
                  tapCount := toIntArd ((trimArd raw).drop (spaceIndex + 1)) }) },
            { bt := [str "Tap limit updated to " ++
                (toString (toIntArd ((trimArd raw).drop (spaceIndex + 1)))).data],
              rtcAdjust := none })
        else
          (st, { bt := [str "Invalid tap limit. Must be 1 or 2."],
                 rtcAdjust := none })) := by
  refine processCommandCases st raw
    (fun res => res =
    (match indexOfSpace (trimArd raw) with
      | none => (st, { bt := [], rtcAdjust := none })
      | some spaceIndex =>
        if toIntArd ((trimArd raw).drop (spaceIndex + 1)) = 1 ∨
            toIntArd ((trimArd raw).drop (spaceIndex + 1)) = 2 then
          ({ st with
              config := { st.config with
                tapCount := toIntArd ((trimArd raw).drop (spaceIndex + 1)) }
              persisted := some (saveConfig
                { st.config with
                  tapCount := toIntArd ((trimArd raw).drop (spaceIndex + 1)) }) },
            { bt := [str "Tap limit updated to " ++
                (toString (toIntArd ((trimArd raw).drop (spaceIndex + 1)))).data],
              rtcAdjust := none })
        else
          (st, { bt := [str "Invalid tap limit. Must be 1 or 2."],
                 rtcAdjust := none })))
    ?_ ?_ ?_ ?_ ?_ ?_ ?_ ?_ ?_ ?_ ?_ ?_ ?_ ?_ ?_ ?_ ?_ ?_ ?_ ?_ ?_ ?_ ?_ ?_
  · exact fun h => bool_contra h (eqIC_false_of_isPrefixOf (str "HELP") hm 0 (by decide) (by decide))
  · exact fun _ h _ => bool_contra h (eqIC_false_of_isPrefixOf (str "SHOW_LOGS") hm 1 (by decide) (by decide))
  · exact fun _ _ h _ _ => bool_contra h (eqIC_false_of_isPrefixOf (str "SHOW_LOGS") hm 1 (by decide) (by decide))
  · exact fun _ _ h _ _ => bool_contra h (eqIC_false_of_isPrefixOf (str "SHOW_LOGS") hm 1 (by decide) (by decide))
  · exact fun _ _ h => bool_contra h (eqIC_false_of_isPrefixOf (str "CLEAR_LOGS") hm 0 (by decide) (by decide))
  · exact fun _ _ _ h => bool_contra h (eqIC_false_of_isPrefixOf (str "SYNC_TIME") hm 1 (by decide) (by decide))
  · exact fun _ _ _ _ h _ => bool_contra h (isPrefixOf_false_of_isPrefixOf (str "SET_RTC") hm 4 (by decide) (by decide) (by decide))
  · exact fun _ _ _ _ h _ _ => bool_contra h (isPrefixOf_false_of_isPrefixOf (str "SET_RTC") hm 4 (by decide) (by decide) (by decide))
  · exact fun _ _ _ _ h _ _ => bool_contra h (isPrefixOf_false_of_isPrefixOf (str "SET_RTC") hm 4 (by decide) (by decide) (by decide))
  · exact fun _ _ _ _ _ h => bool_contra h (eqIC_false_of_isPrefixOf (str "READ_TIME") hm 0 (by decide) (by decide))
  · exact fun _ _ _ _ _ _ h _ => bool_contra h (isPrefixOf_false_of_isPrefixOf (str "SET_NAME") hm 4 (by decide) (by decide) (by decide))
  · exact fun _ _ _ _ _ _ h _ => bool_contra h (isPrefixOf_false_of_isPrefixOf (str "SET_NAME") hm 4 (by decide) (by decide) (by decide))
  · exact fun _ _ _ _ _ _ _ h _ => bool_contra h (isPrefixOf_false_of_isPrefixOf (str "SET_LINE_COUNT") hm 4 (by decide) (by decide) (by decide))
  · exact fun _ _ _ _ _ _ _ h _ => bool_contra h (isPrefixOf_false_of_isPrefixOf (str "SET_LINE_COUNT") hm 4 (by decide) (by decide) (by decide))
  · exact fun _ _ _ _ _ _ _ _ h _ => bool_contra h (isPrefixOf_false_of_isPrefixOf (str "ADD_NOTE") hm 0 (by decide) (by decide) (by decide))
  · exact fun _ _ _ _ _ _ _ _ h _ => bool_contra h (isPrefixOf_false_of_isPrefixOf (str "ADD_NOTE") hm 0 (by decide) (by decide) (by decide))
  · exact fun _ _ _ _ _ _ _ _ _ h => bool_contra h (eqIC_false_of_isPrefixOf (str "CURRENT_CONFIG") hm 0 (by decide) (by decide))
  · intro _ _ _ _ _ _ _ _ _ _ _ hsp; rw [hsp]
  · intro spaceIndex _ hsp hv; simp only [hsp]; rw [if_pos hv]
  · intro spaceIndex _ hsp hv; simp only [hsp]; rw [if_neg hv]
  · exact fun _ _ _ _ _ _ _ _ _ _ _ h _ => bool_contra h (isPrefixOf_false_of_isPrefixOf (str "SET_SENSITIVITY") hm 4 (by decide) (by decide) (by decide))
  · exact fun _ h _ _ => bool_contra h (isPrefixOf_false_of_isPrefixOf (str "SET_SENSITIVITY") hm 4 (by decide) (by decide) (by decide))
  · exact fun _ h _ _ => bool_contra h (isPrefixOf_false_of_isPrefixOf (str "SET_SENSITIVITY") hm 4 (by decide) (by decide) (by decide))
  · exact fun _ _ _ _ _ _ _ _ _ _ h _ => bool_contra hm h

/-- Dispatch equation: an input matching the `SET_SENSITIVITY` guard is handled by
that branch. -/
theorem dispatchSetSens (st : SysState) (raw : List Char)
    (hm : (str "SET_SENSITIVITY").isPrefixOf (trimArd raw) = true) :
    processCommand st raw =
    (match indexOfSpace (trimArd raw) with
      | none => (st, { bt := [], rtcAdjust := none })
      | some spaceIndex =>
        if 1 ≤ toIntArd ((trimArd raw).drop (spaceIndex + 1)) ∧
            toIntArd ((trimArd raw).drop (spaceIndex + 1)) ≤ 127 then
          ({ st with
              config := { st.config with
                sensitivity := toIntArd ((trimArd raw).drop (spaceIndex + 1)) }
              persisted := some (saveConfig
                { st.config with
                  sensitivity := toIntArd ((trimArd raw).drop (spaceIndex + 1)) }) },
            { bt := [str "Sensitivity updated to " ++
                (toString (toIntArd ((trimArd raw).drop (spaceIndex + 1)))).data],
              rtcAdjust := none })
        else
          (st, { bt := [str "Invalid sensitivity. Must be 1-127."],
                 rtcAdjust := none })) := by
  refine processCommandCases st raw
    (fun res => res =
    (match indexOfSpace (trimArd raw) with
      | none => (st, { bt := [], rtcAdjust := none })
      | some spaceIndex =>
        if 1 ≤ toIntArd ((trimArd raw).drop (spaceIndex + 1)) ∧
            toIntArd ((trimArd raw).drop (spaceIndex + 1)) ≤ 127 then
          ({ st with
              config := { st.config with
                sensitivity := toIntArd ((trimArd raw).drop (spaceIndex + 1)) }
              persisted := some (saveConfig
                { st.config with
                  sensitivity := toIntArd ((trimArd raw).drop (spaceIndex + 1)) }) },
            { bt := [str "Sensitivity updated to " ++
                (toString (toIntArd ((trimArd raw).drop (spaceIndex + 1)))).data],
              rtcAdjust := none })
        else
          (st, { bt := [str "Invalid sensitivity. Must be 1-127."],
                 rtcAdjust := none })))
    ?_ ?_ ?_ ?_ ?_ ?_ ?_ ?_ ?_ ?_ ?_ ?_ ?_ ?_ ?_ ?_ ?_ ?_ ?_ ?_ ?_ ?_ ?_ ?_
  · exact fun h => bool_contra h (eqIC_false_of_isPrefixOf (str "HELP") hm 0 (by decide) (by decide))
  · exact fun _ h _ => bool_contra h (eqIC_false_of_isPrefixOf (str "SHOW_LOGS") hm 1 (by decide) (by decide))
  · exact fun _ _ h _ _ => bool_contra h (eqIC_false_of_isPrefixOf (str "SHOW_LOGS") hm 1 (by decide) (by decide))
  · exact fun _ _ h _ _ => bool_contra h (eqIC_false_of_isPrefixOf (str "SHOW_LOGS") hm 1 (by decide) (by decide))
  · exact fun _ _ h => bool_contra h (eqIC_false_of_isPrefixOf (str "CLEAR_LOGS") hm 0 (by decide) (by decide))
  · exact fun _ _ _ h => bool_contra h (eqIC_false_of_isPrefixOf (str "SYNC_TIME") hm 1 (by decide) (by decide))
  · exact fun _ _ _ _ h _ => bool_contra h (isPrefixOf_false_of_isPrefixOf (str "SET_RTC") hm 4 (by decide) (by decide) (by decide))
  · exact fun _ _ _ _ h _ _ => bool_contra h (isPrefixOf_false_of_isPrefixOf (str "SET_RTC") hm 4 (by decide) (by decide) (by decide))
  · exact fun _ _ _ _ h _ _ => bool_contra h (isPrefixOf_false_of_isPrefixOf (str "SET_RTC") hm 4 (by decide) (by decide) (by decide))
  · exact fun _ _ _ _ _ h => bool_contra h (eqIC_false_of_isPrefixOf (str "READ_TIME") hm 0 (by decide) (by decide))
  · exact fun _ _ _ _ _ _ h _ => bool_contra h (isPrefixOf_false_of_isPrefixOf (str "SET_NAME") hm 4 (by decide) (by decide) (by decide))
  · exact fun _ _ _ _ _ _ h _ => bool_contra h (isPrefixOf_false_of_isPrefixOf (str "SET_NAME") hm 4 (by decide) (by decide) (by decide))
  · exact fun _ _ _ _ _ _ _ h _ => bool_contra h (isPrefixOf_false_of_isPrefixOf (str "SET_LINE_COUNT") hm 4 (by decide) (by decide) (by decide))
  · exact fun _ _ _ _ _ _ _ h _ => bool_contra h (isPrefixOf_false_of_isPrefixOf (str "SET_LINE_COUNT") hm 4 (by decide) (by decide) (by decide))
  · exact fun _ _ _ _ _ _ _ _ h _ => bool_contra h (isPrefixOf_false_of_isPrefixOf (str "ADD_NOTE") hm 0 (by decide) (by decide) (by decide))
  · exact fun _ _ _ _ _ _ _ _ h _ => bool_contra h (isPrefixOf_false_of_isPrefixOf (str "ADD_NOTE") hm 0 (by decide) (by decide) (by decide))
  · exact fun _ _ _ _ _ _ _ _ _ h => bool_contra h (eqIC_false_of_isPrefixOf (str "CURRENT_CONFIG") hm 0 (by decide) (by decide))
  · exact fun _ _ _ _ _ _ _ _ _ _ h _ => bool_contra h (isPrefixOf_false_of_isPrefixOf (str "SET_TAP") hm 4 (by decide) (by decide) (by decide))
  · exact fun _ h _ _ => bool_contra h (isPrefixOf_false_of_isPrefixOf (str "SET_TAP") hm 4 (by decide) (by decide) (by decide))
  · exact fun _ h _ _ => bool_contra h (isPrefixOf_false_of_isPrefixOf (str "SET_TAP") hm 4 (by decide) (by decide) (by decide))
  · intro _ _ _ _ _ _ _ _ _ _ _ _ hsp; rw [hsp]
  · intro spaceIndex _ hsp hv; simp only [hsp]; rw [if_pos hv]
  · intro spaceIndex _ hsp hv; simp only [hsp]; rw [if_neg hv]
  · exact fun _ _ _ _ _ _ _ _ _ _ _ h => bool_contra hm h

/-- Removing a file makes it unreadable. -/
theorem fsRead_fsRemove_self (fs : List (List Char × List Char)) (p : List Char) :
    fsRead (fsRemove fs p) p = none := by
  have h : (fsRemove fs p).find? (fun e => e.1 == p) = none := by
    rw [List.find?_eq_none]
    intro x hx
    have hm := (List.mem_filter.mp hx).2
    simp only [Bool.not_eq_true'] at hm
    simp [hm]
  rw [fsRead, h]
  rfl

/-- Removing one file cannot make another readable. -/
theorem fsRead_fsRemove_none (fs : List (List Char × List Char)) (p q : List Char)
    (h : fsRead fs q = none) : fsRead (fsRemove fs p) q = none := by
  have h1 : fs.find? (fun e => e.1 == q) = none := by
    cases hf : fs.find? (fun e => e.1 == q) with
    | none => rfl
    | some v => rw [fsRead, hf] at h; simp at h
  have h2 : (fsRemove fs p).find? (fun e => e.1 == q) = none := by
    rw [List.find?_eq_none] at h1 ⊢
    intro x hx
    exact h1 x (List.mem_filter.mp hx).1
  rw [fsRead, h2]
  rfl

/-- Dispatch equation for the final `else`: an input matching none of the
twelve guards is answered with the fixed unknown-command response and
leaves the state untouched. -/
theorem dispatchUnknown (st : SysState) (raw : List Char)
    (h : matchesGrammar (trimArd raw) = false) :
    processCommand st raw =
      (st, { bt := [str "Unknown command. Type HELP for list."],
             rtcAdjust := none }) := by
  simp only [matchesGrammar, Bool.or_eq_false_iff] at h
  obtain ⟨⟨⟨⟨⟨⟨⟨⟨⟨⟨⟨h1, h2⟩, h3⟩, h4⟩, h5⟩, h6⟩, h7⟩, h8⟩, h9⟩, h10⟩, h11⟩, h12⟩ := h
  simp only [processCommand, h1, h2, h3, h4, h5, h6, h7, h8, h9, h10, h11, h12]
  simp

/-- C2.  Dispatching `SET_NAME B` (non-empty trimmed `B`) while the log
identity is `A = st.logFilePath` deletes A's log file, sets the trap name
to `B`, rebinds the log path to B's identity, persists the new config, and
emits exactly the confirmation; afterwards no log file exists under either
identity, so reading the log under `B` reports no entries.  The freshness
hypothesis — no stale file already sits at B's path — holds in every state
reachable by the protocol, which only ever creates the current identity's
file. -/
theorem processCommand_setName_rebind (st : SysState) (raw : List Char)
    (hpfx : (str "SET_NAME").isPrefixOf (trimArd raw) = true)
    (hB : ¬ (trimArd ((trimArd raw).drop 8)).length = 0)
    (hfresh : fsRead st.files (updateLogFilePath (trimArd ((trimArd raw).drop 8))) = none ∨
      updateLogFilePath (trimArd ((trimArd raw).drop 8)) = st.logFilePath) :
    (processCommand st raw).2.bt =
      [str "Trap name updated to: " ++ trimArd ((trimArd raw).drop 8)] ∧
    (processCommand st raw).2.rtcAdjust = none ∧
    (processCommand st raw).1.config.trapName = trimArd ((trimArd raw).drop 8) ∧
    (processCommand st raw).1.logFilePath =
      updateLogFilePath (trimArd ((trimArd raw).drop 8)) ∧
    (processCommand st raw).1.persisted =
      some (saveConfig (processCommand st raw).1.config) ∧
    fsRead (processCommand st raw).1.files st.logFilePath = none ∧
    fsRead (processCommand st raw).1.files (processCommand st raw).1.logFilePath = none ∧
    (processCommand (processCommand st raw).1 (str "SHOW_LOGS")).2.bt =
      [str "No logs found."] := by
  have hd := dispatchSetName st raw hpfx
  rw [if_neg hB] at hd
  rw [hd]
  have h7 : fsRead (fsRemove st.files st.logFilePath)
      (updateLogFilePath (trimArd ((trimArd raw).drop 8))) = none := by
    rcases hfresh with hfr | hfr
    · exact fsRead_fsRemove_none _ _ _ hfr
    · rw [hfr]
      exact fsRead_fsRemove_self _ _
  refine ⟨rfl, rfl, rfl, rfl, rfl, fsRead_fsRemove_self _ _, h7, ?_⟩
  rw [dispatchShowLogs _ _ (by decide)]
  simp only []
  rw [h7]

/-- C2 witness: `SET_NAME B` on the concrete state `st0` (whose log under
the default identity holds one entry). -/
theorem processCommand_setName_rebind_witness :
    ((str "SET_NAME").isPrefixOf (trimArd (str "SET_NAME B")) = true ∧
      ¬ (trimArd ((trimArd (str "SET_NAME B")).drop 8)).length = 0 ∧
      fsRead st0.files
        (updateLogFilePath (trimArd ((trimArd (str "SET_NAME B")).drop 8))) = none) ∧
    ((processCommand st0 (str "SET_NAME B")).2.bt =
      [str "Trap name updated to: " ++ trimArd ((trimArd (str "SET_NAME B")).drop 8)] ∧
    (processCommand st0 (str "SET_NAME B")).2.rtcAdjust = none ∧
    (processCommand st0 (str "SET_NAME B")).1.config.trapName =
      trimArd ((trimArd (str "SET_NAME B")).drop 8) ∧
    (processCommand st0 (str "SET_NAME B")).1.logFilePath =
      updateLogFilePath (trimArd ((trimArd (str "SET_NAME B")).drop 8)) ∧
    (processCommand st0 (str "SET_NAME B")).1.persisted =
      some (saveConfig (processCommand st0 (str "SET_NAME B")).1.config) ∧
    fsRead (processCommand st0 (str "SET_NAME B")).1.files st0.logFilePath = none ∧
    fsRead (processCommand st0 (str "SET_NAME B")).1.files
      (processCommand st0 (str "SET_NAME B")).1.logFilePath = none ∧
    (processCommand (processCommand st0 (str "SET_NAME B")).1 (str "SHOW_LOGS")).2.bt =
      [str "No logs found."]) :=
  ⟨⟨by decide, by decide, by decide⟩,
    processCommand_setName_rebind st0 (str "SET_NAME B")
      (by decide) (by decide) (Or.inl (by decide))⟩

/-- C10.  Any `SET_RTC` payload that passes the format check (trimmed
length at least 19 and the five template separators) is parsed with
`toInt` at the fixed offsets and handed to `rtc.adjust` unvalidated — no
range check is applied to the six fields — and the confirmation
`RTC updated.` is emitted. -/
theorem processCommand_setRtcNoRangeCheck (st : SysState) (raw : List Char)
    (hpfx : (str "SET_RTC").isPrefixOf (trimArd raw) = true)
    (hlen : ¬ (trimArd ((trimArd raw).drop 8)).length < 19)
    (hsep : rtcSepOk (trimArd ((trimArd raw).drop 8)) = true) :
    (processCommand st raw).2.bt = [str "RTC updated."] ∧
    (processCommand st raw).2.rtcAdjust =
      some (parseRtc (trimArd ((trimArd raw).drop 8))) ∧
    (processCommand st raw).1 =
      { st with rtcTime := parseRtc (trimArd ((trimArd raw).drop 8)) } := by
  have hd := dispatchSetRtc st raw hpfx
  rw [if_neg hlen, if_neg (by simp [hsep])] at hd
  rw [hd]
  exact ⟨rfl, rfl, rfl⟩

/-- C10 witness: the out-of-range payload `9999-99-99 99:99:99` passes the
format check and is passed to `rtc.adjust` verbatim. -/
theorem processCommand_setRtcNoRangeCheck_witness :
    ((str "SET_RTC").isPrefixOf (trimArd (str "SET_RTC 9999-99-99 99:99:99")) = true ∧
      ¬ (trimArd ((trimArd (str "SET_RTC 9999-99-99 99:99:99")).drop 8)).length < 19 ∧
      rtcSepOk (trimArd ((trimArd (str "SET_RTC 9999-99-99 99:99:99")).drop 8)) = true ∧
      parseRtc (trimArd ((trimArd (str "SET_RTC 9999-99-99 99:99:99")).drop 8)) =
        { year := 9999, month := 99, day := 99, hour := 99, minute := 99, second := 99 }) ∧
    ((processCommand st0 (str "SET_RTC 9999-99-99 99:99:99")).2.bt =
        [str "RTC updated."] ∧
      (processCommand st0 (str "SET_RTC 9999-99-99 99:99:99")).2.rtcAdjust =
        some (parseRtc (trimArd ((trimArd (str "SET_RTC 9999-99-99 99:99:99")).drop 8))) ∧
      (processCommand st0 (str "SET_RTC 9999-99-99 99:99:99")).1 =
        { st0 with rtcTime :=
            parseRtc (trimArd ((trimArd (str "SET_RTC 9999-99-99 99:99:99")).drop 8)) }) :=
  ⟨⟨by decide, by decide, by decide, by decide⟩,
    processCommand_setRtcNoRangeCheck st0 (str "SET_RTC 9999-99-99 99:99:99")
      (by decide) (by decide) (by decide)⟩

/-- C3 counterexample: the 20-character payload
`2024-01-01 00:00:00Z` is not exactly 19 characters long, yet the
dispatcher accepts it (the code checks `length < 19`, not `length != 19`),
adjusts the RTC, and confirms — the claim requires a format-error
rejection here. -/
theorem processCommand_setRtcLength_counterexample :
    (processCommand st0 (str "SET_RTC 2024-01-01 00:00:00Z")).2.bt =
      [str "RTC updated."] ∧
    (processCommand st0 (str "SET_RTC 2024-01-01 00:00:00Z")).2.rtcAdjust =
      some { year := 2024, month := 1, day := 1, hour := 0, minute := 0, second := 0 } :=
  ⟨by decide, by decide⟩

/-- C3 (amended).  In the part_001/part_002 variants a `SET_RTC` payload
is rejected with the format-error response — leaving the state and the RTC
untouched — exactly when its trimmed length is below 19 or one of the five
separator offsets is wrong; any payload of length 19 or more with correct
separators is accepted (characters beyond offset 19 are ignored).  The
part_000 variant checks only `length != 19` and no separators: the
19-character garbage payload of all zeroes is accepted there. -/
theorem processCommand_setRtcFormat (st : SysState) (raw : List Char)
    (hpfx : (str "SET_RTC").isPrefixOf (trimArd raw) = true) :
    ((trimArd ((trimArd raw).drop 8)).length < 19 ∨
        rtcSepOk (trimArd ((trimArd raw).drop 8)) = false →
      processCommand st raw =
        (st, { bt := [str "Invalid format. Use: SET_RTC YYYY-MM-DD HH:MM:SS"],
               rtcAdjust := none })) ∧
    (¬ (trimArd ((trimArd raw).drop 8)).length < 19 →
      rtcSepOk (trimArd ((trimArd raw).drop 8)) = true →
      (processCommand st raw).2.bt = [str "RTC updated."] ∧
      (processCommand st raw).2.rtcAdjust =
        some (parseRtc (trimArd ((trimArd raw).drop 8)))) ∧
    rtcParse000 (str "0000000000000000000") =
      some { year := 0, month := 0, day := 0, hour := 0, minute := 0, second := 0 } := by
  have hd := dispatchSetRtc st raw hpfx
  refine ⟨?_, ?_, by decide⟩
  · intro hrej
    by_cases hl : (trimArd ((trimArd raw).drop 8)).length < 19
    · rw [hd, if_pos hl]
    · rcases hrej with hrej | hsep
      · exact absurd hrej hl
      · rw [hd, if_neg hl, if_pos hsep]
  · intro hl hsep
    rw [hd, if_neg hl, if_neg (by simp [hsep])]
    exact ⟨rfl, rfl⟩

/-- C3 witness: the malformed payload `abc` is rejected on `st0` with the
format-error response and no state change. -/
theorem processCommand_setRtcFormat_witness :
    ((str "SET_RTC").isPrefixOf (trimArd (str "SET_RTC abc")) = true ∧
      (trimArd ((trimArd (str "SET_RTC abc")).drop 8)).length < 19) ∧
    processCommand st0 (str "SET_RTC abc") =
      (st0, { bt := [str "Invalid format. Use: SET_RTC YYYY-MM-DD HH:MM:SS"],
              rtcAdjust := none }) :=
  ⟨⟨by decide, by decide⟩,
    (processCommand_setRtcFormat st0 (str "SET_RTC abc") (by decide)).1
      (Or.inl (by decide))⟩

/-- C4 counterexample: `set_name B` differs from `SET_NAME B` only in the
case of the command keyword, yet it is dispatched to the unknown-command
branch while the upper-case form performs the rename — the argument-taking
commands are matched case-sensitively. -/
theorem processCommand_lowercase_counterexample :
    (processCommand st0 (str "set_name B")).2.bt =
      [str "Unknown command. Type HELP for list."] ∧
    (processCommand st0 (str "SET_NAME B")).2.bt =
      [str "Trap name updated to: " ++ str "B"] :=
  ⟨by decide, by decide⟩

/-- C4 (amended).  The no-argument commands (`HELP`, `SHOW_LOGS`,
`CLEAR_LOGS`, `SYNC_TIME`, `READ_TIME`, `CURRENT_CONFIG`) are matched
case-insensitively: any input whose trimmed form equals the keyword up to
letter case is dispatched exactly as the canonical keyword.  The
argument-taking commands are matched by the case-sensitive `startsWith`,
so their lower-case variants fall through to the unknown-command
branch. -/
theorem processCommand_caseMatching (st : SysState) :
    (∀ raw, eqIC (trimArd raw) (str "HELP") = true →
      processCommand st raw = processCommand st (str "HELP")) ∧
    (∀ raw, eqIC (trimArd raw) (str "SHOW_LOGS") = true →
      processCommand st raw = processCommand st (str "SHOW_LOGS")) ∧
    (∀ raw, eqIC (trimArd raw) (str "CLEAR_LOGS") = true →
      processCommand st raw = processCommand st (str "CLEAR_LOGS")) ∧
    (∀ raw, eqIC (trimArd raw) (str "SYNC_TIME") = true →
      processCommand st raw = processCommand st (str "SYNC_TIME")) ∧
    (∀ raw, eqIC (trimArd raw) (str "READ_TIME") = true →
      processCommand st raw = processCommand st (str "READ_TIME")) ∧
    (∀ raw, eqIC (trimArd raw) (str "CURRENT_CONFIG") = true →
      processCommand st raw = processCommand st (str "CURRENT_CONFIG")) ∧
    ((processCommand st (str "set_rtc 2024-01-01 00:00:00")).2.bt =
        [str "Unknown command. Type HELP for list."] ∧
      (processCommand st (str "set_name B")).2.bt =
        [str "Unknown command. Type HELP for list."] ∧
      (processCommand st (str "set_line_count 5")).2.bt =
        [str "Unknown command. Type HELP for list."] ∧
      (processCommand st (str "add_note hi")).2.bt =
        [str "Unknown command. Type HELP for list."] ∧
      (processCommand st (str "set_tap 1")).2.bt =
        [str "Unknown command. Type HELP for list."] ∧
      (processCommand st (str "set_sensitivity 50")).2.bt =
        [str "Unknown command. Type HELP for list."]) := by
  refine ⟨?_, ?_, ?_, ?_, ?_, ?_, ?_, ?_, ?_, ?_, ?_, ?_⟩
  · intro raw h
    rw [dispatchHelp st raw h, dispatchHelp st (str "HELP") (by decide)]
  · intro raw h
    rw [dispatchShowLogs st raw h, dispatchShowLogs st (str "SHOW_LOGS") (by decide)]
  · intro raw h
    rw [dispatchClearLogs st raw h, dispatchClearLogs st (str "CLEAR_LOGS") (by decide)]
  · intro raw h
    rw [dispatchSyncTime st raw h, dispatchSyncTime st (str "SYNC_TIME") (by decide)]
  · intro raw h
    rw [dispatchReadTime st raw h, dispatchReadTime st (str "READ_TIME") (by decide)]
  · intro raw h
    rw [dispatchCurrentConfig st raw h,
      dispatchCurrentConfig st (str "CURRENT_CONFIG") (by decide)]
  · rw [dispatchUnknown st _ (by decide)]
  · rw [dispatchUnknown st _ (by decide)]
  · rw [dispatchUnknown st _ (by decide)]
  · rw [dispatchUnknown st _ (by decide)]
  · rw [dispatchUnknown st _ (by decide)]
  · rw [dispatchUnknown st _ (by decide)]

/-- C4 witness: `Help` is dispatched exactly as `HELP` on `st0`. -/
theorem processCommand_caseMatching_witness :
    eqIC (trimArd (str "Help")) (str "HELP") = true ∧
    processCommand st0 (str "Help") = processCommand st0 (str "HELP") :=
  ⟨by decide, (processCommand_caseMatching st0).1 (str "Help") (by decide)⟩

/-- C5 counterexample: dispatching `SET_TAP` with no argument produces
zero writes on the client transport (the code only prints a diagnostic to
the USB serial console), contradicting the claim that every input yields
exactly one response. -/
theorem processCommand_setTapNoArg_counterexample :
    (processCommand st0 (str "SET_TAP")).2.bt = [] := by
  decide
/-- C5 (amended).  A dispatched input produces zero client-transport
writes exactly when its trimmed form starts with `SET_TAP` or
`SET_SENSITIVITY` and contains no space: in that case only a diagnostic is
printed on the USB serial console.  Every other input — including every
other error case — produces at least one transport write (a single
response, possibly split into multiple writes such as a streamed log
dump). -/
theorem processCommand_responseCount (st : SysState) (raw : List Char) :
    (processCommand st raw).2.bt = [] ↔
      (((str "SET_TAP").isPrefixOf (trimArd raw) ||
          (str "SET_SENSITIVITY").isPrefixOf (trimArd raw)) = true ∧
        indexOfSpace (trimArd raw) = none) := by
  refine processCommandCases st raw
    (fun res => (res.2.bt = [] ↔
      (((str "SET_TAP").isPrefixOf (trimArd raw) ||
          (str "SET_SENSITIVITY").isPrefixOf (trimArd raw)) = true ∧
        indexOfSpace (trimArd raw) = none)))
    ?_ ?_ ?_ ?_ ?_ ?_ ?_ ?_ ?_ ?_ ?_ ?_ ?_ ?_ ?_ ?_ ?_ ?_ ?_ ?_ ?_ ?_ ?_ ?_
  · intro h
    refine ⟨fun hb => absurd hb (List.cons_ne_nil _ _), fun hc => ?_⟩
    rcases Bool.or_eq_true_iff.mp hc.1 with hx | hx
    · exact bool_contra hx (isPrefixOf_false_of_eqIC (str "SET_TAP") h 0 (by decide) (by decide))
    · exact bool_contra hx (isPrefixOf_false_of_eqIC (str "SET_SENSITIVITY") h 0 (by decide) (by decide))
  · intro _ h _
    refine ⟨fun hb => absurd hb (List.cons_ne_nil _ _), fun hc => ?_⟩
    rcases Bool.or_eq_true_iff.mp hc.1 with hx | hx
    · exact bool_contra hx (isPrefixOf_false_of_eqIC (str "SET_TAP") h 1 (by decide) (by decide))
    · exact bool_contra hx (isPrefixOf_false_of_eqIC (str "SET_SENSITIVITY") h 1 (by decide) (by decide))
  · intro _ _ h _ _
    refine ⟨fun hb => absurd hb (List.cons_ne_nil _ _), fun hc => ?_⟩
    rcases Bool.or_eq_true_iff.mp hc.1 with hx | hx
    · exact bool_contra hx (isPrefixOf_false_of_eqIC (str "SET_TAP") h 1 (by decide) (by decide))
    · exact bool_contra hx (isPrefixOf_false_of_eqIC (str "SET_SENSITIVITY") h 1 (by decide) (by decide))
  · intro _ _ h _ _
    refine ⟨fun hb => absurd hb (List.cons_ne_nil _ _), fun hc => ?_⟩
    rcases Bool.or_eq_true_iff.mp hc.1 with hx | hx
    · exact bool_contra hx (isPrefixOf_false_of_eqIC (str "SET_TAP") h 1 (by decide) (by decide))
    · exact bool_contra hx (isPrefixOf_false_of_eqIC (str "SET_SENSITIVITY") h 1 (by decide) (by decide))
  · intro _ _ h
    refine ⟨fun hb => absurd hb (List.cons_ne_nil _ _), fun hc => ?_⟩
    rcases Bool.or_eq_true_iff.mp hc.1 with hx | hx
    · exact bool_contra hx (isPrefixOf_false_of_eqIC (str "SET_TAP") h 0 (by decide) (by decide))
    · exact bool_contra hx (isPrefixOf_false_of_eqIC (str "SET_SENSITIVITY") h 0 (by decide) (by decide))
  · intro _ _ _ h
    refine ⟨fun hb => absurd hb (List.cons_ne_nil _ _), fun hc => ?_⟩
    rcases Bool.or_eq_true_iff.mp hc.1 with hx | hx
    · exact bool_contra hx (isPrefixOf_false_of_eqIC (str "SET_TAP") h 1 (by decide) (by decide))
    · exact bool_contra hx (isPrefixOf_false_of_eqIC (str "SET_SENSITIVITY") h 1 (by decide) (by decide))
  · intro _ _ _ _ h _
    refine ⟨fun hb => absurd hb (List.cons_ne_nil _ _), fun hc => ?_⟩
    rcases Bool.or_eq_true_iff.mp hc.1 with hx | hx
    · exact bool_contra hx (isPrefixOf_false_of_isPrefixOf (str "SET_TAP") h 4 (by decide) (by decide) (by decide))
    · exact bool_contra hx (isPrefixOf_false_of_isPrefixOf (str "SET_SENSITIVITY") h 4 (by decide) (by decide) (by decide))
  · intro _ _ _ _ h _ _
    refine ⟨fun hb => absurd hb (List.cons_ne_nil _ _), fun hc => ?_⟩
    rcases Bool.or_eq_true_iff.mp hc.1 with hx | hx
    · exact bool_contra hx (isPrefixOf_false_of_isPrefixOf (str "SET_TAP") h 4 (by decide) (by decide) (by decide))
    · exact bool_contra hx (isPrefixOf_false_of_isPrefixOf (str "SET_SENSITIVITY") h 4 (by decide) (by decide) (by decide))
  · intro _ _ _ _ h _ _
    refine ⟨fun hb => absurd hb (List.cons_ne_nil _ _), fun hc => ?_⟩
    rcases Bool.or_eq_true_iff.mp hc.1 with hx | hx
    · exact bool_contra hx (isPrefixOf_false_of_isPrefixOf (str "SET_TAP") h 4 (by decide) (by decide) (by decide))
    · exact bool_contra hx (isPrefixOf_false_of_isPrefixOf (str "SET_SENSITIVITY") h 4 (by decide) (by decide) (by decide))
  · intro _ _ _ _ _ h
    refine ⟨fun hb => absurd hb (List.cons_ne_nil _ _), fun hc => ?_⟩
    rcases Bool.or_eq_true_iff.mp hc.1 with hx | hx
    · exact bool_contra hx (isPrefixOf_false_of_eqIC (str "SET_TAP") h 0 (by decide) (by decide))
    · exact bool_contra hx (isPrefixOf_false_of_eqIC (str "SET_SENSITIVITY") h 0 (by decide) (by decide))
  · intro _ _ _ _ _ _ h _
    refine ⟨fun hb => absurd hb (List.cons_ne_nil _ _), fun hc => ?_⟩
    rcases Bool.or_eq_true_iff.mp hc.1 with hx | hx
    · exact bool_contra hx (isPrefixOf_false_of_isPrefixOf (str "SET_TAP") h 4 (by decide) (by decide) (by decide))
    · exact bool_contra hx (isPrefixOf_false_of_isPrefixOf (str "SET_SENSITIVITY") h 4 (by decide) (by decide) (by decide))
  · intro _ _ _ _ _ _ h _
    refine ⟨fun hb => absurd hb (List.cons_ne_nil _ _), fun hc => ?_⟩
    rcases Bool.or_eq_true_iff.mp hc.1 with hx | hx
    · exact bool_contra hx (isPrefixOf_false_of_isPrefixOf (str "SET_TAP") h 4 (by decide) (by decide) (by decide))
    · exact bool_contra hx (isPrefixOf_false_of_isPrefixOf (str "SET_SENSITIVITY") h 4 (by decide) (by decide) (by decide))
  · intro _ _ _ _ _ _ _ h _
    refine ⟨fun hb => absurd hb (List.cons_ne_nil _ _), fun hc => ?_⟩
    rcases Bool.or_eq_true_iff.mp hc.1 with hx | hx
    · exact bool_contra hx (isPrefixOf_false_of_isPrefixOf (str "SET_TAP") h 4 (by decide) (by decide) (by decide))
    · exact bool_contra hx (isPrefixOf_false_of_isPrefixOf (str "SET_SENSITIVITY") h 4 (by decide) (by decide) (by decide))
  · intro _ _ _ _ _ _ _ h _
    refine ⟨fun hb => absurd hb (List.cons_ne_nil _ _), fun hc => ?_⟩
    rcases Bool.or_eq_true_iff.mp hc.1 with hx | hx
    · exact bool_contra hx (isPrefixOf_false_of_isPrefixOf (str "SET_TAP") h 4 (by decide) (by decide) (by decide))
    · exact bool_contra hx (isPrefixOf_false_of_isPrefixOf (str "SET_SENSITIVITY") h 4 (by decide) (by decide) (by decide))
  · intro _ _ _ _ _ _ _ _ h _
    refine ⟨fun hb => absurd hb (List.cons_ne_nil _ _), fun hc => ?_⟩
    rcases Bool.or_eq_true_iff.mp hc.1 with hx | hx
    · exact bool_contra hx (isPrefixOf_false_of_isPrefixOf (str "SET_TAP") h 0 (by decide) (by decide) (by decide))
    · exact bool_contra hx (isPrefixOf_false_of_isPrefixOf (str "SET_SENSITIVITY") h 0 (by decide) (by decide) (by decide))
  · intro _ _ _ _ _ _ _ _ h _
    refine ⟨fun hb => absurd hb (List.cons_ne_nil _ _), fun hc => ?_⟩
    rcases Bool.or_eq_true_iff.mp hc.1 with hx | hx
    · exact bool_contra hx (isPrefixOf_false_of_isPrefixOf (str "SET_TAP") h 0 (by decide) (by decide) (by decide))
    · exact bool_contra hx (isPrefixOf_false_of_isPrefixOf (str "SET_SENSITIVITY") h 0 (by decide) (by decide) (by decide))
  · intro _ _ _ _ _ _ _ _ _ h
    refine ⟨fun hb => absurd hb (List.cons_ne_nil _ _), fun hc => ?_⟩
    rcases Bool.or_eq_true_iff.mp hc.1 with hx | hx
    · exact bool_contra hx (isPrefixOf_false_of_eqIC (str "SET_TAP") h 0 (by decide) (by decide))
    · exact bool_contra hx (isPrefixOf_false_of_eqIC (str "SET_SENSITIVITY") h 0 (by decide) (by decide))
  · intro _ _ _ _ _ _ _ _ _ _ h11 hsp
    exact ⟨fun _ => ⟨by rw [h11]; rfl, hsp⟩, fun _ => rfl⟩
  · intro i _ hsp hv
    refine ⟨fun hb => absurd hb (List.cons_ne_nil _ _), fun hc => ?_⟩
    exact Option.noConfusion (hsp.symm.trans hc.2)
  · intro i _ hsp hv
    refine ⟨fun hb => absurd hb (List.cons_ne_nil _ _), fun hc => ?_⟩
    exact Option.noConfusion (hsp.symm.trans hc.2)
  · intro _ _ _ _ _ _ _ _ _ _ _ h12 hsp
    exact ⟨fun _ => ⟨by rw [h12, Bool.or_true], hsp⟩, fun _ => rfl⟩
  · intro i _ hsp hv
    refine ⟨fun hb => absurd hb (List.cons_ne_nil _ _), fun hc => ?_⟩
    exact Option.noConfusion (hsp.symm.trans hc.2)
  · intro i _ hsp hv
    refine ⟨fun hb => absurd hb (List.cons_ne_nil _ _), fun hc => ?_⟩
    exact Option.noConfusion (hsp.symm.trans hc.2)
  · intro _ _ _ _ _ _ _ _ _ _ h11 h12
    refine ⟨fun hb => absurd hb (List.cons_ne_nil _ _), fun hc => ?_⟩
    rcases Bool.or_eq_true_iff.mp hc.1 with hx | hx
    · exact bool_contra hx h11
    · exact bool_contra hx h12

/-- Complete case analysis of one `checkButtonPress` poll: either the read
level changed (timer reset, read state updated, and — since the timer was
just reset — no commit is possible on the same poll), or a commit happens
(level held, delay elapsed, level differs from the stable one), or the
state is unchanged. -/
theorem checkButtonPress_state (s : BtnState) (t : Nat) (lvl : Bool) :
    (lvl ≠ s.lastReadState ∧
      (checkButtonPress s t lvl).1 =
        { s with lastDebounceTime := t, lastReadState := lvl }) ∨
    (lvl = s.lastReadState ∧ debounceDelay < t - s.lastDebounceTime ∧
      lvl ≠ s.lastStableState ∧
      (checkButtonPress s t lvl).1 = { s with lastStableState := lvl }) ∨
    (lvl = s.lastReadState ∧
      ¬ (debounceDelay < t - s.lastDebounceTime ∧ lvl ≠ s.lastStableState) ∧
      (checkButtonPress s t lvl).1 = s) := by
  by_cases hr : lvl = s.lastReadState
  · by_cases hd : debounceDelay < t - s.lastDebounceTime
    · by_cases hc : lvl = s.lastStableState
      · refine Or.inr (Or.inr ⟨hr, fun hab => hab.2 hc, ?_⟩)
        simp [checkButtonPress, ← hr, hd, hc]
      · refine Or.inr (Or.inl ⟨hr, hd, hc, ?_⟩)
        simp [checkButtonPress, ← hr, hd, hc]
    · refine Or.inr (Or.inr ⟨hr, fun hab => hd hab.1, ?_⟩)
      simp [checkButtonPress, ← hr, hd]
  · refine Or.inl ⟨hr, ?_⟩
    simp [checkButtonPress, hr, Nat.sub_self]

/-- A poll that commits a stable-level change happened with the level held
(no read change), after the debounce delay elapsed, and only replaces the
stable level. -/
theorem checkButtonPress_commit_facts (s : BtnState) (t : Nat) (lvl : Bool)
    (h : (checkButtonPress s t lvl).1.lastStableState ≠ s.lastStableState) :
    lvl = s.lastReadState ∧ debounceDelay < t - s.lastDebounceTime ∧
    lvl ≠ s.lastStableState ∧
    (checkButtonPress s t lvl).1 = { s with lastStableState := lvl } := by
  rcases checkButtonPress_state s t lvl with ⟨hr, hs⟩ | ⟨hr, hd, hc, hs⟩ | ⟨hr, hno, hs⟩
  · rw [hs] at h
    exact absurd rfl h
  · exact ⟨hr, hd, hc, hs⟩
  · rw [hs] at h
    exact absurd rfl h

/-- The event flag is raised only on a commit into the `LOW` level: the
previous stable level was `HIGH` and the new one is `LOW`. -/
theorem checkButtonPress_emit (s : BtnState) (t : Nat) (lvl : Bool)
    (h : (checkButtonPress s t lvl).2 = true) :
    s.lastStableState = true ∧
    (checkButtonPress s t lvl).1.lastStableState = false := by
  by_cases hr : lvl = s.lastReadState
  · by_cases hd : debounceDelay < t - s.lastDebounceTime
    · by_cases hc : lvl = s.lastStableState
      · simp [checkButtonPress, ← hr, hd, hc] at h
      · have hlvl : lvl = false := by
          simpa [checkButtonPress, ← hr, hd, hc] using h
        have hst : s.lastStableState = true := by
          rcases Bool.eq_false_or_eq_true s.lastStableState with ht | hf
          · exact ht
          · exact absurd (hlvl.trans hf.symm) hc
        exact ⟨hst, by simp [checkButtonPress, ← hr, hd, hc, hlvl, hst]⟩
    · simp [checkButtonPress, ← hr, hd] at h
  · simp [checkButtonPress, hr, Nat.sub_self] at h

/-- Once the classifier is in a quiescent state relative to epoch `t0`
(either the stable and read levels agree, or the debounce timer was reset
at or after `t0`), every subsequent commit over a trace of polls at times
at or after `t0` happens strictly later than `t0 + debounceDelay`. -/
theorem commitTimes_late (t0 : Nat) :
    ∀ (rest : List (Nat × Bool)) (s : BtnState),
      (s.lastStableState ≠ s.lastReadState → t0 ≤ s.lastDebounceTime) →
      (∀ p ∈ rest, t0 ≤ p.1) →
      ∀ c ∈ commitTimes s rest, t0 + debounceDelay < c := by
  intro rest
  induction rest with
  | nil =>
    intro s _ _ c hc
    simp [commitTimes] at hc
  | cons p rest ih =>
    rcases p with ⟨t, lvl⟩
    intro s hQ htimes c hc
    rw [commitTimes] at hc
    by_cases hcommit : (checkButtonPress s t lvl).1.lastStableState ≠ s.lastStableState
    · rw [if_pos hcommit] at hc
      obtain ⟨hr, hd, hcne, hs⟩ := checkButtonPress_commit_facts s t lvl hcommit
      have hQ' : s.lastStableState ≠ s.lastReadState := by
        intro he
        exact hcne (hr.trans he.symm)
      have hldt := hQ hQ'
      rcases List.mem_cons.mp hc with rfl | hc'
      · have hdc : debounceDelay < c - s.lastDebounceTime := hd
        omega
      · refine ih (checkButtonPress s t lvl).1 ?_ ?_ c hc'
        · intro hne
          exfalso
          apply hne
          rw [hs]
          exact hr
        · intro q hq
          exact htimes q (List.mem_cons_of_mem _ hq)
    · rw [if_neg hcommit] at hc
      refine ih (checkButtonPress s t lvl).1 ?_ ?_ c hc
      · rcases checkButtonPress_state s t lvl with ⟨hr, hs⟩ | ⟨hr, hd, hchg, hs⟩ | ⟨hr, hno, hs⟩
        · intro _
          rw [hs]
          exact htimes (t, lvl) (List.mem_cons_self _ _)
        · exfalso
          apply hcommit
          rw [hs]
          simpa using hchg
        · rw [hs]
          exact hQ
      · intro q hq
        exact htimes q (List.mem_cons_of_mem _ hq)

/-- Consecutive commits of the stable level are separated by more than the
debounce delay. -/
theorem commitTimes_chain :
    ∀ (tr : List (Nat × Bool)) (s : BtnState),
      List.Chain' (· ≤ ·) (tr.map Prod.fst) →
      List.Chain' (fun a b => a + debounceDelay < b) (commitTimes s tr) := by
  intro tr
  induction tr with
  | nil =>
    intro s _
    simp [commitTimes]
  | cons p tr ih =>
    rcases p with ⟨t, lvl⟩
    intro s hmono
    have hmono' : List.Chain' (· ≤ ·) (tr.map Prod.fst) :=
      (List.chain'_cons'.mp (by simpa using hmono)).2
    have hge : ∀ q ∈ tr, t ≤ q.1 := by
      intro q hq
      have hp := List.chain'_iff_pairwise.mp (by simpa using hmono)
      rcases List.pairwise_cons.mp hp with ⟨hhead, _⟩
      exact hhead q.1 (List.mem_map_of_mem Prod.fst hq)
    rw [commitTimes]
    by_cases hcommit : (checkButtonPress s t lvl).1.lastStableState ≠ s.lastStableState
    · rw [if_pos hcommit]
      refine List.chain'_cons'.mpr ⟨?_, ih _ hmono'⟩
      intro y hy
      have hmem : y ∈ commitTimes (checkButtonPress s t lvl).1 tr :=
        List.mem_of_mem_head? hy
      obtain ⟨hr, hd, hcne, hs⟩ := checkButtonPress_commit_facts s t lvl hcommit
      refine commitTimes_late t tr _ ?_ hge y hmem
      intro hne
      exfalso
      apply hne
      rw [hs]
      exact hr
    · rw [if_neg hcommit]
      exact ih _ hmono'

/-- Every commit time is one of the poll times. -/
theorem commitTimes_subset :
    ∀ (tr : List (Nat × Bool)) (s : BtnState),
      ∀ c ∈ commitTimes s tr, c ∈ tr.map Prod.fst := by
  intro tr
  induction tr with
  | nil =>
    intro s c hc
    simp [commitTimes] at hc
  | cons p tr ih =>
    rcases p with ⟨t, lvl⟩
    intro s c hc
    rw [commitTimes] at hc
    by_cases hcommit : (checkButtonPress s t lvl).1.lastStableState ≠ s.lastStableState
    · rw [if_pos hcommit] at hc
      rcases List.mem_cons.mp hc with rfl | hc'
      · simp
      · simp only [List.map_cons]
        exact List.mem_cons_of_mem _ (ih _ c hc')
    · rw [if_neg hcommit] at hc
      simp only [List.map_cons]
      exact List.mem_cons_of_mem _ (ih _ c hc)

/-- C8.  Debounce suppression and edge semantics of `checkButtonPress`:
for any run of polls with nondecreasing `millis` values that all lie
within one `debounceDelay` window `[T, T + 50]`, at most one change of the
stable level is committed; and whenever a poll raises the event flag (the
one `TRIGGERED` log), it is exactly a committed transition of the stable
level from `HIGH` into the active `LOW` level. -/
theorem checkButtonPress_debounce :
    (∀ (s : BtnState) (tr : List (Nat × Bool)) (T : Nat),
      List.Chain' (· ≤ ·) (tr.map Prod.fst) →
      (∀ p ∈ tr, T ≤ p.1 ∧ p.1 ≤ T + debounceDelay) →
      (commitTimes s tr).length ≤ 1) ∧
    (∀ (s : BtnState) (t : Nat) (lvl : Bool),
      (checkButtonPress s t lvl).2 = true →
      s.lastStableState = true ∧
      (checkButtonPress s t lvl).1.lastStableState = false) := by
  constructor
  · intro s tr T hmono hwin
    by_contra hlen
    push_neg at hlen
    have hchain := commitTimes_chain tr s hmono
    rcases hct : commitTimes s tr with _ | ⟨c1, ctail⟩
    · rw [hct] at hlen
      simp at hlen
    rcases ctail with _ | ⟨c2, crest⟩
    · rw [hct] at hlen
      simp at hlen
    rw [hct] at hchain
    have h12 : c1 + debounceDelay < c2 := (List.chain'_cons.mp hchain).1
    have hm1 : c1 ∈ tr.map Prod.fst := by
      refine commitTimes_subset tr s c1 ?_
      rw [hct]
      simp
    have hm2 : c2 ∈ tr.map Prod.fst := by
      refine commitTimes_subset tr s c2 ?_
      rw [hct]
      simp
    rcases List.mem_map.mp hm1 with ⟨p1, hp1, he1⟩
    rcases List.mem_map.mp hm2 with ⟨p2, hp2, he2⟩
    have hb1 := hwin p1 hp1
    have hb2 := hwin p2 hp2
    omega
  · exact checkButtonPress_emit

/-- C8 witness: a bouncy trace inside one 50-unit window commits at most
once, and a concrete poll that logs an event is a `HIGH → LOW` stable
transition. -/
theorem checkButtonPress_debounce_witness :
    (commitTimes initBtnState [(100, false), (120, true), (140, false)]).length ≤ 1 ∧
    (BtnState.lastStableState
        { lastStableState := true, lastReadState := false, lastDebounceTime := 10 } = true ∧
      (checkButtonPress
          { lastStableState := true, lastReadState := false, lastDebounceTime := 10 }
          100 false).1.lastStableState = false) :=
  ⟨checkButtonPress_debounce.1 initBtnState
      [(100, false), (120, true), (140, false)] 100
      (by simp [List.chain'_cons]) (by decide),
    checkButtonPress_debounce.2
      { lastStableState := true, lastReadState := false, lastDebounceTime := 10 }
      100 false (by decide)⟩
